import Mathlib

/-!
A shallow embedding of the well-known readiness controller of the
cluster-authentication-operator (package `readiness`, file `part_000`) and of
the route reconciliation helpers (`pkg/operator2/route.go`), together with
proofs about the condition-aggregation step, the endpoint address resolver,
the fail-fast probe loop, the discovery-document round trip and the error
handling of the lookups.

Machine integers of the Go code are modelled as `Int`/`Nat` (no arithmetic in
this code ever overflows), fallible calls as `Option`/`Except`, and the
external collaborators (listers, HTTP transport, status writer) as explicit
inputs or oracles passed to the embedded functions.
-/

namespace CAO

/- ### A model of the JSON documents handled by `encoding/json` in this code.

The discovery documents this controller produces and compares consist of
strings, arrays of strings, and one top-level object of such values
(`map[string]interface{}` on the Go side).  The parser below models Go's
`json.Unmarshal` on exactly that fragment: JSON strings (with the common
escape sequences), arrays of strings, and a top-level object; any other JSON
construct is rejected.  Strings are kept as `List Char`; Go compares the
decoded structures with `reflect.DeepEqual`, which on maps is unordered key
comparison, modelled by `deepEqualObj` below. -/

inductive JVal where
  | str (s : List Char)
  | arr (elems : List (List Char))
deriving DecidableEq, Repr

abbrev JObj := List (List Char × JVal)

/-- Whitespace characters skipped by the JSON scanner. -/
def isWsChar (c : Char) : Bool := c = ' ' || c = '\n' || c = '\t' || c = '\r'

def skipWs : List Char → List Char
  | [] => []
  | c :: rest => if isWsChar c then skipWs rest else c :: rest

/-- Scan the body of a JSON string (the opening quote already consumed),
returning the decoded characters and the input after the closing quote.
Escape sequences are not modelled: no document this controller produces or
validates contains one, so the model simply rejects a backslash (Go would
decode it; every theorem below stays within the escape-free fragment). -/
def parseStrBody (acc : List Char) : List Char → Option (List Char × List Char)
  | [] => none
  | c :: rest =>
    if c = '"' then some (acc.reverse, rest)
    else if c = '\\' then none
    else if c.val < 32 then none
    else parseStrBody (c :: acc) rest

/-- A character the JSON string scanner copies through verbatim. -/
def goodChar (c : Char) : Bool := !(c = '"') && !(c = '\\') && !(c.val < 32)

theorem skipWs_le (l : List Char) : (skipWs l).length ≤ l.length := by
  induction l with
  | nil => simp [skipWs]
  | cons c rest ih =>
    simp only [skipWs]
    split
    · exact Nat.le_succ_of_le ih
    · simp

theorem skipWs_cons_lt {l r : List Char} {c : Char} (h : skipWs l = c :: r) :
    r.length < l.length := by
  have := skipWs_le l
  rw [h] at this
  simp only [List.length_cons] at this
  omega

theorem parseStrBody_lt_aux (l : List Char) : ∀ acc s r,
    parseStrBody acc l = some (s, r) → r.length < l.length := by
  induction l with
  | nil => intro acc s r h; simp [parseStrBody] at h
  | cons c rest ih =>
    intro acc s r h
    simp only [parseStrBody] at h
    split at h
    · simp only [Option.some.injEq, Prod.mk.injEq] at h
      obtain ⟨-, h2⟩ := h
      subst h2
      simp
    · split at h
      · exact absurd h (by simp)
      · split at h
        · exact absurd h (by simp)
        · have hr := ih _ _ _ h
          simp only [List.length_cons]
          omega

theorem parseStrBody_lt {l : List Char} {acc s r : List Char}
    (h : parseStrBody acc l = some (s, r)) : r.length < l.length :=
  parseStrBody_lt_aux l acc s r h

theorem parseStrBody_good (s : List Char) : ∀ acc post, (∀ c ∈ s, goodChar c) →
    parseStrBody acc (s ++ '"' :: post) = some (acc.reverse ++ s, post) := by
  induction s with
  | nil => intro acc post _; simp [parseStrBody]
  | cons c t ih =>
    intro acc post hg
    have hc : goodChar c := hg c (by simp)
    simp only [goodChar, Bool.and_eq_true, Bool.not_eq_true', decide_eq_false_iff_not] at hc
    obtain ⟨⟨h1, h2⟩, h3⟩ := hc
    simp only [List.cons_append, parseStrBody]
    rw [if_neg h1, if_neg h2, if_neg h3]
    simp only [List.append_eq]
    rw [ih (c :: acc) post (fun x hx => hg x (by simp [hx]))]
    simp

/-- The element loop of a (non-empty) JSON array of strings: positioned at the
first element, returns the decoded elements and the input after `]`. -/
def parseArrLoop (l : List Char) : Option (List (List Char) × List Char) :=
  match h₁ : skipWs l with
  | c :: rest₁ =>
    if c = '"' then
      match h₂ : parseStrBody [] rest₁ with
      | some (s, r₂) =>
        match h₃ : skipWs r₂ with
        | c₂ :: r₃ =>
          if c₂ = ',' then
            match parseArrLoop r₃ with
            | some (es, r₄) => some (s :: es, r₄)
            | none => none
          else if c₂ = ']' then some ([s], r₃)
          else none
        | [] => none
      | none => none
    else none
  | [] => none
termination_by l.length
decreasing_by
  have e1 : rest₁.length < l.length := skipWs_cons_lt h₁
  have e2 : r₂.length < rest₁.length := parseStrBody_lt h₂
  have e3 : r₃.length < r₂.length := skipWs_cons_lt h₃
  omega

theorem parseArrLoop_lt_aux : ∀ n l, l.length ≤ n → ∀ es r,
    parseArrLoop l = some (es, r) → r.length < l.length := by
  intro n
  induction n with
  | zero =>
    intro l hl es r h
    have : l = [] := List.length_eq_zero.mp (Nat.le_zero.mp hl)
    subst this
    rw [parseArrLoop] at h
    simp [skipWs] at h
  | succ n ih =>
    intro l hl es r h
    rw [parseArrLoop] at h
    split at h
    · rename_i c rest₁ h₁
      split at h
      · split at h
        · rename_i s r₂ h₂
          split at h
          · rename_i c₂ r₃ h₃
            split at h
            · split at h
              · rename_i es' r₄ h₄
                simp only [Option.some.injEq, Prod.mk.injEq] at h
                obtain ⟨-, h5⟩ := h
                have e1 : rest₁.length < l.length := skipWs_cons_lt h₁
                have e2 : r₂.length < rest₁.length := parseStrBody_lt h₂
                have e3 : r₃.length < r₂.length := skipWs_cons_lt h₃
                have e4 : r₄.length < r₃.length := ih r₃ (by omega) es' r₄ h₄
                rw [h5] at e4
                omega
              · exact absurd h (by simp)
            · split at h
              · simp only [Option.some.injEq, Prod.mk.injEq] at h
                obtain ⟨-, h5⟩ := h
                have e1 : rest₁.length < l.length := skipWs_cons_lt h₁
                have e2 : r₂.length < rest₁.length := parseStrBody_lt h₂
                have e3 : r₃.length < r₂.length := skipWs_cons_lt h₃
                rw [h5] at e3
                omega
              · exact absurd h (by simp)
          · exact absurd h (by simp)
        · exact absurd h (by simp)
      · exact absurd h (by simp)
    · exact absurd h (by simp)

theorem parseArrLoop_lt {l : List Char} {es : List (List Char)} {r : List Char}
    (h : parseArrLoop l = some (es, r)) : r.length < l.length :=
  parseArrLoop_lt_aux l.length l le_rfl es r h

/-- Parse one JSON value of the fragment this controller handles: a string or
an array of strings.  Returns the value and the rest of the input. -/
def parseValue (l : List Char) : Option (JVal × List Char) :=
  match skipWs l with
  | c :: rest =>
    if c = '"' then
      match parseStrBody [] rest with
      | some (s, r) => some (.str s, r)
      | none => none
    else if c = '[' then
      match skipWs rest with
      | c₂ :: r₂ =>
        if c₂ = ']' then some (.arr [], r₂)
        else
          match parseArrLoop rest with
          | some (es, r) => some (.arr es, r)
          | none => none
      | [] => none
    else none
  | [] => none

theorem parseValue_lt {l : List Char} {v : JVal} {r : List Char}
    (h : parseValue l = some (v, r)) : r.length < l.length := by
  rw [parseValue] at h
  split at h
  · rename_i c rest h₁
    have e1 : rest.length < l.length := skipWs_cons_lt h₁
    split at h
    · split at h
      · rename_i s r₂ h₂
        simp only [Option.some.injEq, Prod.mk.injEq] at h
        obtain ⟨-, h5⟩ := h
        have e2 : r₂.length < rest.length := parseStrBody_lt h₂
        rw [h5] at e2
        omega
      · exact absurd h (by simp)
    · split at h
      · split at h
        · rename_i c₂ r₂ h₂
          split at h
          · simp only [Option.some.injEq, Prod.mk.injEq] at h
            obtain ⟨-, h5⟩ := h
            have e2 : r₂.length < rest.length := skipWs_cons_lt h₂
            rw [h5] at e2
            omega
          · split at h
            · rename_i es r₂' h₃
              simp only [Option.some.injEq, Prod.mk.injEq] at h
              obtain ⟨-, h5⟩ := h
              have e2 : r₂'.length < rest.length := parseArrLoop_lt h₃
              rw [h5] at e2
              omega
            · exact absurd h (by simp)
        · exact absurd h (by simp)
      · exact absurd h (by simp)
  · exact absurd h (by simp)

/-- The member loop of a (non-empty) JSON object: positioned at the first
`"key"` of the object, returns the members in source order and the input
after the closing `}`. -/
def parseFields (l : List Char) : Option (JObj × List Char) :=
  match h₁ : skipWs l with
  | c :: rest₁ =>
    if c = '"' then
      match h₂ : parseStrBody [] rest₁ with
      | some (k, r₂) =>
        match h₃ : skipWs r₂ with
        | c₂ :: r₃ =>
          if c₂ = ':' then
            match h₄ : parseValue r₃ with
            | some (v, r₄) =>
              match h₅ : skipWs r₄ with
              | c₃ :: r₅ =>
                if c₃ = ',' then
                  match parseFields r₅ with
                  | some (fs, r₆) => some ((k, v) :: fs, r₆)
                  | none => none
                else if c₃ = '}' then some ([(k, v)], r₅)
                else none
              | [] => none
            | none => none
          else none
        | [] => none
      | none => none
    else none
  | [] => none
termination_by l.length
decreasing_by
  have e1 : rest₁.length < l.length := skipWs_cons_lt h₁
  have e2 : r₂.length < rest₁.length := parseStrBody_lt h₂
  have e3 : r₃.length < r₂.length := skipWs_cons_lt h₃
  have e4 : r₄.length < r₃.length := parseValue_lt h₄
  have e5 : r₅.length < r₄.length := skipWs_cons_lt h₅
  omega

/-- Model of `json.Unmarshal` into `map[string]interface{}`, restricted to
the JSON fragment this controller handles (see the section comment): parse a
top-level object followed by nothing but whitespace. -/
def parseDocL (l : List Char) : Option JObj :=
  match skipWs l with
  | c :: rest =>
    if c = '{' then
      match skipWs rest with
      | c₂ :: r₂ =>
        if c₂ = '}' then (if skipWs r₂ = [] then some [] else none)
        else
          match parseFields rest with
          | some (fs, r) => if skipWs r = [] then some fs else none
          | none => none
      | [] => none
    else none
  | [] => none

def parseDoc (s : String) : Option JObj := parseDocL s.data

/- Unfolding ("step") lemmas for the parsing loops, used to run the parser
symbolically over the discovery-document template. -/

theorem parseStrBody_run (s post : List Char) (hs : s.all goodChar = true) :
    parseStrBody [] (s ++ '"' :: post) = some (s, post) := by
  simpa using parseStrBody_good s [] post (by simpa [List.all_eq_true] using hs)

theorem parseArrLoop_cons_eq {l rest₁ s r₂ r₃ : List Char} {es : List (List Char)}
    {r₄ : List Char} (h₁ : skipWs l = '"' :: rest₁)
    (h₂ : parseStrBody [] rest₁ = some (s, r₂)) (h₃ : skipWs r₂ = ',' :: r₃)
    (h₄ : parseArrLoop r₃ = some (es, r₄)) : parseArrLoop l = some (s :: es, r₄) := by
  rw [parseArrLoop, h₁]
  simp only [if_true]
  rw [h₂]
  simp only []
  rw [h₃]
  simp only [if_true]
  rw [h₄]

theorem parseArrLoop_last_eq {l rest₁ s r₂ r₃ : List Char} (h₁ : skipWs l = '"' :: rest₁)
    (h₂ : parseStrBody [] rest₁ = some (s, r₂)) (h₃ : skipWs r₂ = ']' :: r₃) :
    parseArrLoop l = some ([s], r₃) := by
  rw [parseArrLoop, h₁]
  simp only [if_true]
  rw [h₂]
  simp only []
  rw [h₃]
  simp

theorem parseValue_str_eq {l rest₁ s r₂ : List Char} (h₁ : skipWs l = '"' :: rest₁)
    (h₂ : parseStrBody [] rest₁ = some (s, r₂)) : parseValue l = some (.str s, r₂) := by
  rw [parseValue, h₁]
  simp only [if_true]
  rw [h₂]

theorem parseValue_arr_eq {l rest₁ t r : List Char} {c : Char} {es : List (List Char)}
    (h₁ : skipWs l = '[' :: rest₁) (h₂ : skipWs rest₁ = c :: t) (hc : ¬ c = ']')
    (h₃ : parseArrLoop rest₁ = some (es, r)) : parseValue l = some (.arr es, r) := by
  rw [parseValue, h₁]
  simp only [if_true, if_false]
  rw [h₂]
  simp only []
  rw [if_neg hc, h₃]
  simp

theorem parseFields_cons_eq {l rest₁ k r₂ r₃ r₄ r₅ r₆ : List Char} {v : JVal} {fs : JObj}
    (h₁ : skipWs l = '"' :: rest₁) (h₂ : parseStrBody [] rest₁ = some (k, r₂))
    (h₃ : skipWs r₂ = ':' :: r₃) (h₄ : parseValue r₃ = some (v, r₄))
    (h₅ : skipWs r₄ = ',' :: r₅) (h₆ : parseFields r₅ = some (fs, r₆)) :
    parseFields l = some ((k, v) :: fs, r₆) := by
  rw [parseFields, h₁]
  simp only [if_true]
  rw [h₂]
  simp only []
  rw [h₃]
  simp only [if_true]
  rw [h₄]
  simp only []
  rw [h₅]
  simp only [if_true]
  rw [h₆]

theorem parseFields_last_eq {l rest₁ k r₂ r₃ r₄ r₅ : List Char} {v : JVal}
    (h₁ : skipWs l = '"' :: rest₁) (h₂ : parseStrBody [] rest₁ = some (k, r₂))
    (h₃ : skipWs r₂ = ':' :: r₃) (h₄ : parseValue r₃ = some (v, r₄))
    (h₅ : skipWs r₄ = '}' :: r₅) : parseFields l = some ([(k, v)], r₅) := by
  rw [parseFields, h₁]
  simp only [if_true]
  rw [h₂]
  simp only []
  rw [h₃]
  simp only [if_true]
  rw [h₄]
  simp only []
  rw [h₅]
  simp

theorem parseFields_stop_eq {l rest₁ k r₂ r₃ r₄ r₅ : List Char} {v : JVal}
    (h₁ : skipWs l = '"' :: rest₁) (h₂ : parseStrBody [] rest₁ = some (k, r₂))
    (h₃ : skipWs r₂ = ':' :: r₃) (h₄ : parseValue r₃ = some (v, r₄))
    (h₅ : skipWs r₄ = '"' :: r₅) : parseFields l = none := by
  rw [parseFields, h₁]
  simp only [if_true]
  rw [h₂]
  simp only []
  rw [h₃]
  simp only [if_true]
  rw [h₄]
  simp only []
  rw [h₅]
  simp

theorem parseDocL_fields_eq {l rest t r : List Char} {c : Char} {fs : JObj}
    (h₁ : skipWs l = '{' :: rest) (h₂ : skipWs rest = c :: t) (hc : ¬ c = '}')
    (h₃ : parseFields rest = some (fs, r)) (h₄ : skipWs r = []) :
    parseDocL l = some fs := by
  rw [parseDocL, h₁]
  simp only [if_true]
  rw [h₂]
  simp only []
  rw [if_neg hc, h₃]
  simp only []
  rw [if_pos h₄]

theorem parseDocL_fields_none {l rest t : List Char} {c : Char}
    (h₁ : skipWs l = '{' :: rest) (h₂ : skipWs rest = c :: t) (hc : ¬ c = '}')
    (h₃ : parseFields rest = none) : parseDocL l = none := by
  rw [parseDocL, h₁]
  simp only [if_true]
  rw [h₂]
  simp only []
  rw [if_neg hc, h₃]

/-- Look a key up in a decoded object the way Go's map does: a later
duplicate member overwrites an earlier one. -/
def objLookup (o : JObj) (k : List Char) : Option JVal :=
  match o with
  | [] => none
  | (k', v) :: rest => match objLookup rest k with
    | some v' => some v'
    | none => if k' = k then some v else none

/-- Model of `reflect.DeepEqual` on two decoded documents (`map[string]interface{}`):
unordered key comparison, ordered comparison inside array values. -/
def deepEqualObj (a b : JObj) : Bool :=
  ((a.map Prod.fst) ++ (b.map Prod.fst)).all fun k => decide (objLookup a k = objLookup b k)

/- ### The discovery document (`getOAuthMetadata` / `getMetadataStruct`). -/

/-- Model of `getOAuthMetadata` from the source: the stub metadata template with the
host interpolated at its three `%s` positions.  The Go literal starts and
ends with a newline which `strings.TrimSpace` removes; the trimmed form is
written directly here (`\x7b`/`\x7d` denote the braces of the JSON text). -/
def getOAuthMetadata (host : String) : String :=
  "\x7b\n  \"issuer\": \"https://" ++ host ++
  "\",\n  \"authorization_endpoint\": \"https://" ++ host ++
  "/oauth/authorize\",\n  \"token_endpoint\": \"https://" ++ host ++
  "/oauth/token\",\n  \"scopes_supported\": [\n    \"user:check-access\",\n    \"user:full\",\n    \"user:info\",\n    \"user:list-projects\",\n    \"user:list-scoped-projects\"\n  ],\n  \"response_types_supported\": [\n    \"code\",\n    \"token\"\n  ],\n  \"grant_types_supported\": [\n    \"authorization_code\",\n    \"implicit\"\n  ],\n  \"code_challenge_methods_supported\": [\n    \"plain\",\n    \"S256\"\n  ]\n\x7d"

/-- Model of `getMetadataStruct` from the source, as a function of the route's host:
unmarshal the generated metadata back into a generic document.  The Go code
panics when unmarshalling fails ("should never happen unless the static
metadata is broken"); the panic is the `none` case here. -/
def getMetadataStruct (host : String) : Option JObj :=
  parseDoc (getOAuthMetadata host)

/-- The discovery document structure the spec describes, constructed
directly: the seven keys with their string or ordered-string-list values. -/
def expectedMetadataObj (host : String) : JObj :=
  [("issuer".data, .str ("https://".data ++ host.data)),
   ("authorization_endpoint".data, .str ("https://".data ++ host.data ++ "/oauth/authorize".data)),
   ("token_endpoint".data, .str ("https://".data ++ host.data ++ "/oauth/token".data)),
   ("scopes_supported".data, .arr ["user:check-access".data, "user:full".data, "user:info".data,
      "user:list-projects".data, "user:list-scoped-projects".data]),
   ("response_types_supported".data, .arr ["code".data, "token".data]),
   ("grant_types_supported".data, .arr ["authorization_code".data, "implicit".data]),
   ("code_challenge_methods_supported".data, .arr ["plain".data, "S256".data])]

/-- A hostname every character of which passes through the JSON string
scanner verbatim (no quote, no backslash, no control character). -/
def goodHost (host : String) : Bool := host.data.all goodChar

theorem all_goodChar_append (a b : List Char) (ha : a.all goodChar = true)
    (hb : b.all goodChar = true) : (a ++ b).all goodChar = true := by
  simp [List.all_append, ha, hb]

set_option maxRecDepth 8000 in
/-- Running the JSON parser over the interpolated template: for a host
whose characters pass through the string scanner verbatim, unmarshalling
the generated metadata yields exactly the directly-constructed document. -/
theorem parse_metadata_eq (h : String) (hg : h.data.all goodChar = true) :
    parseDoc (getOAuthMetadata h) = some (expectedMetadataObj h) := by
  have hq6 : skipWs "\n  \"code_challenge_methods_supported\": [\n    \"plain\",\n    \"S256\"\n  ]\n\x7d".data = '"' :: ("code_challenge_methods_supported".data ++ '"' :: ": [\n    \"plain\",\n    \"S256\"\n  ]\n\x7d".data) := by simp [skipWs, isWsChar]
  have hk6 : parseStrBody [] ("code_challenge_methods_supported".data ++ '"' :: ": [\n    \"plain\",\n    \"S256\"\n  ]\n\x7d".data) = some ("code_challenge_methods_supported".data, ": [\n    \"plain\",\n    \"S256\"\n  ]\n\x7d".data) :=
    parseStrBody_run "code_challenge_methods_supported".data ": [\n    \"plain\",\n    \"S256\"\n  ]\n\x7d".data (by decide)
  have hc6 : skipWs ": [\n    \"plain\",\n    \"S256\"\n  ]\n\x7d".data = ':' :: " [\n    \"plain\",\n    \"S256\"\n  ]\n\x7d".data := by simp [skipWs, isWsChar]
  have hvb6 : skipWs " [\n    \"plain\",\n    \"S256\"\n  ]\n\x7d".data = '[' :: "\n    \"plain\",\n    \"S256\"\n  ]\n\x7d".data := by simp [skipWs, isWsChar]
  have heq6_1 : skipWs "\n    \"S256\"\n  ]\n\x7d".data = '"' :: ("S256".data ++ '"' :: "\n  ]\n\x7d".data) := by simp [skipWs, isWsChar]
  have hes6_1 : parseStrBody [] ("S256".data ++ '"' :: "\n  ]\n\x7d".data) = some ("S256".data, "\n  ]\n\x7d".data) :=
    parseStrBody_run "S256".data "\n  ]\n\x7d".data (by decide)
  have hel6_1 : skipWs "\n  ]\n\x7d".data = ']' :: "\n\x7d".data := by simp [skipWs, isWsChar]
  have ha6_1 : parseArrLoop "\n    \"S256\"\n  ]\n\x7d".data = some (["S256".data], "\n\x7d".data) :=
    parseArrLoop_last_eq heq6_1 hes6_1 hel6_1
  have heq6_0 : skipWs "\n    \"plain\",\n    \"S256\"\n  ]\n\x7d".data = '"' :: ("plain".data ++ '"' :: ",\n    \"S256\"\n  ]\n\x7d".data) := by simp [skipWs, isWsChar]
  have hes6_0 : parseStrBody [] ("plain".data ++ '"' :: ",\n    \"S256\"\n  ]\n\x7d".data) = some ("plain".data, ",\n    \"S256\"\n  ]\n\x7d".data) :=
    parseStrBody_run "plain".data ",\n    \"S256\"\n  ]\n\x7d".data (by decide)
  have hen6_0 : skipWs ",\n    \"S256\"\n  ]\n\x7d".data = ',' :: "\n    \"S256\"\n  ]\n\x7d".data := by simp [skipWs, isWsChar]
  have ha6_0 : parseArrLoop "\n    \"plain\",\n    \"S256\"\n  ]\n\x7d".data = some (["plain".data, "S256".data], "\n\x7d".data) :=
    parseArrLoop_cons_eq heq6_0 hes6_0 hen6_0 ha6_1
  have hv6 : parseValue " [\n    \"plain\",\n    \"S256\"\n  ]\n\x7d".data = some (JVal.arr ["plain".data, "S256".data], "\n\x7d".data) :=
    parseValue_arr_eq hvb6 heq6_0 (by decide) ha6_0
  have hsep6 : skipWs "\n\x7d".data = '\x7d' :: ([] : List Char) := by simp [skipWs, isWsChar]
  have hf6 : parseFields "\n  \"code_challenge_methods_supported\": [\n    \"plain\",\n    \"S256\"\n  ]\n\x7d".data = some ([("code_challenge_methods_supported".data, JVal.arr ["plain".data, "S256".data])], ([] : List Char)) :=
    parseFields_last_eq hq6 hk6 hc6 hv6 hsep6
  have hq5 : skipWs "\n  \"grant_types_supported\": [\n    \"authorization_code\",\n    \"implicit\"\n  ],\n  \"code_challenge_methods_supported\": [\n    \"plain\",\n    \"S256\"\n  ]\n\x7d".data = '"' :: ("grant_types_supported".data ++ '"' :: ": [\n    \"authorization_code\",\n    \"implicit\"\n  ],\n  \"code_challenge_methods_supported\": [\n    \"plain\",\n    \"S256\"\n  ]\n\x7d".data) := by simp [skipWs, isWsChar]
  have hk5 : parseStrBody [] ("grant_types_supported".data ++ '"' :: ": [\n    \"authorization_code\",\n    \"implicit\"\n  ],\n  \"code_challenge_methods_supported\": [\n    \"plain\",\n    \"S256\"\n  ]\n\x7d".data) = some ("grant_types_supported".data, ": [\n    \"authorization_code\",\n    \"implicit\"\n  ],\n  \"code_challenge_methods_supported\": [\n    \"plain\",\n    \"S256\"\n  ]\n\x7d".data) :=
    parseStrBody_run "grant_types_supported".data ": [\n    \"authorization_code\",\n    \"implicit\"\n  ],\n  \"code_challenge_methods_supported\": [\n    \"plain\",\n    \"S256\"\n  ]\n\x7d".data (by decide)
  have hc5 : skipWs ": [\n    \"authorization_code\",\n    \"implicit\"\n  ],\n  \"code_challenge_methods_supported\": [\n    \"plain\",\n    \"S256\"\n  ]\n\x7d".data = ':' :: " [\n    \"authorization_code\",\n    \"implicit\"\n  ],\n  \"code_challenge_methods_supported\": [\n    \"plain\",\n    \"S256\"\n  ]\n\x7d".data := by simp [skipWs, isWsChar]
  have hvb5 : skipWs " [\n    \"authorization_code\",\n    \"implicit\"\n  ],\n  \"code_challenge_methods_supported\": [\n    \"plain\",\n    \"S256\"\n  ]\n\x7d".data = '[' :: "\n    \"authorization_code\",\n    \"implicit\"\n  ],\n  \"code_challenge_methods_supported\": [\n    \"plain\",\n    \"S256\"\n  ]\n\x7d".data := by simp [skipWs, isWsChar]
  have heq5_1 : skipWs "\n    \"implicit\"\n  ],\n  \"code_challenge_methods_supported\": [\n    \"plain\",\n    \"S256\"\n  ]\n\x7d".data = '"' :: ("implicit".data ++ '"' :: "\n  ],\n  \"code_challenge_methods_supported\": [\n    \"plain\",\n    \"S256\"\n  ]\n\x7d".data) := by simp [skipWs, isWsChar]
  have hes5_1 : parseStrBody [] ("implicit".data ++ '"' :: "\n  ],\n  \"code_challenge_methods_supported\": [\n    \"plain\",\n    \"S256\"\n  ]\n\x7d".data) = some ("implicit".data, "\n  ],\n  \"code_challenge_methods_supported\": [\n    \"plain\",\n    \"S256\"\n  ]\n\x7d".data) :=
    parseStrBody_run "implicit".data "\n  ],\n  \"code_challenge_methods_supported\": [\n    \"plain\",\n    \"S256\"\n  ]\n\x7d".data (by decide)
  have hel5_1 : skipWs "\n  ],\n  \"code_challenge_methods_supported\": [\n    \"plain\",\n    \"S256\"\n  ]\n\x7d".data = ']' :: ",\n  \"code_challenge_methods_supported\": [\n    \"plain\",\n    \"S256\"\n  ]\n\x7d".data := by simp [skipWs, isWsChar]
  have ha5_1 : parseArrLoop "\n    \"implicit\"\n  ],\n  \"code_challenge_methods_supported\": [\n    \"plain\",\n    \"S256\"\n  ]\n\x7d".data = some (["implicit".data], ",\n  \"code_challenge_methods_supported\": [\n    \"plain\",\n    \"S256\"\n  ]\n\x7d".data) :=
    parseArrLoop_last_eq heq5_1 hes5_1 hel5_1
  have heq5_0 : skipWs "\n    \"authorization_code\",\n    \"implicit\"\n  ],\n  \"code_challenge_methods_supported\": [\n    \"plain\",\n    \"S256\"\n  ]\n\x7d".data = '"' :: ("authorization_code".data ++ '"' :: ",\n    \"implicit\"\n  ],\n  \"code_challenge_methods_supported\": [\n    \"plain\",\n    \"S256\"\n  ]\n\x7d".data) := by simp [skipWs, isWsChar]
  have hes5_0 : parseStrBody [] ("authorization_code".data ++ '"' :: ",\n    \"implicit\"\n  ],\n  \"code_challenge_methods_supported\": [\n    \"plain\",\n    \"S256\"\n  ]\n\x7d".data) = some ("authorization_code".data, ",\n    \"implicit\"\n  ],\n  \"code_challenge_methods_supported\": [\n    \"plain\",\n    \"S256\"\n  ]\n\x7d".data) :=
    parseStrBody_run "authorization_code".data ",\n    \"implicit\"\n  ],\n  \"code_challenge_methods_supported\": [\n    \"plain\",\n    \"S256\"\n  ]\n\x7d".data (by decide)
  have hen5_0 : skipWs ",\n    \"implicit\"\n  ],\n  \"code_challenge_methods_supported\": [\n    \"plain\",\n    \"S256\"\n  ]\n\x7d".data = ',' :: "\n    \"implicit\"\n  ],\n  \"code_challenge_methods_supported\": [\n    \"plain\",\n    \"S256\"\n  ]\n\x7d".data := by simp [skipWs, isWsChar]
  have ha5_0 : parseArrLoop "\n    \"authorization_code\",\n    \"implicit\"\n  ],\n  \"code_challenge_methods_supported\": [\n    \"plain\",\n    \"S256\"\n  ]\n\x7d".data = some (["authorization_code".data, "implicit".data], ",\n  \"code_challenge_methods_supported\": [\n    \"plain\",\n    \"S256\"\n  ]\n\x7d".data) :=
    parseArrLoop_cons_eq heq5_0 hes5_0 hen5_0 ha5_1
  have hv5 : parseValue " [\n    \"authorization_code\",\n    \"implicit\"\n  ],\n  \"code_challenge_methods_supported\": [\n    \"plain\",\n    \"S256\"\n  ]\n\x7d".data = some (JVal.arr ["authorization_code".data, "implicit".data], ",\n  \"code_challenge_methods_supported\": [\n    \"plain\",\n    \"S256\"\n  ]\n\x7d".data) :=
    parseValue_arr_eq hvb5 heq5_0 (by decide) ha5_0
  have hsep5 : skipWs ",\n  \"code_challenge_methods_supported\": [\n    \"plain\",\n    \"S256\"\n  ]\n\x7d".data = ',' :: "\n  \"code_challenge_methods_supported\": [\n    \"plain\",\n    \"S256\"\n  ]\n\x7d".data := by simp [skipWs, isWsChar]
  have hf5 : parseFields "\n  \"grant_types_supported\": [\n    \"authorization_code\",\n    \"implicit\"\n  ],\n  \"code_challenge_methods_supported\": [\n    \"plain\",\n    \"S256\"\n  ]\n\x7d".data = some ([("grant_types_supported".data, JVal.arr ["authorization_code".data, "implicit".data]), ("code_challenge_methods_supported".data, JVal.arr ["plain".data, "S256".data])], ([] : List Char)) :=
    parseFields_cons_eq hq5 hk5 hc5 hv5 hsep5 hf6
  have hq4 : skipWs "\n  \"response_types_supported\": [\n    \"code\",\n    \"token\"\n  ],\n  \"grant_types_supported\": [\n    \"authorization_code\",\n    \"implicit\"\n  ],\n  \"code_challenge_methods_supported\": [\n    \"plain\",\n    \"S256\"\n  ]\n\x7d".data = '"' :: ("response_types_supported".data ++ '"' :: ": [\n    \"code\",\n    \"token\"\n  ],\n  \"grant_types_supported\": [\n    \"authorization_code\",\n    \"implicit\"\n  ],\n  \"code_challenge_methods_supported\": [\n    \"plain\",\n    \"S256\"\n  ]\n\x7d".data) := by simp [skipWs, isWsChar]
  have hk4 : parseStrBody [] ("response_types_supported".data ++ '"' :: ": [\n    \"code\",\n    \"token\"\n  ],\n  \"grant_types_supported\": [\n    \"authorization_code\",\n    \"implicit\"\n  ],\n  \"code_challenge_methods_supported\": [\n    \"plain\",\n    \"S256\"\n  ]\n\x7d".data) = some ("response_types_supported".data, ": [\n    \"code\",\n    \"token\"\n  ],\n  \"grant_types_supported\": [\n    \"authorization_code\",\n    \"implicit\"\n  ],\n  \"code_challenge_methods_supported\": [\n    \"plain\",\n    \"S256\"\n  ]\n\x7d".data) :=
    parseStrBody_run "response_types_supported".data ": [\n    \"code\",\n    \"token\"\n  ],\n  \"grant_types_supported\": [\n    \"authorization_code\",\n    \"implicit\"\n  ],\n  \"code_challenge_methods_supported\": [\n    \"plain\",\n    \"S256\"\n  ]\n\x7d".data (by decide)
  have hc4 : skipWs ": [\n    \"code\",\n    \"token\"\n  ],\n  \"grant_types_supported\": [\n    \"authorization_code\",\n    \"implicit\"\n  ],\n  \"code_challenge_methods_supported\": [\n    \"plain\",\n    \"S256\"\n  ]\n\x7d".data = ':' :: " [\n    \"code\",\n    \"token\"\n  ],\n  \"grant_types_supported\": [\n    \"authorization_code\",\n    \"implicit\"\n  ],\n  \"code_challenge_methods_supported\": [\n    \"plain\",\n    \"S256\"\n  ]\n\x7d".data := by simp [skipWs, isWsChar]
  have hvb4 : skipWs " [\n    \"code\",\n    \"token\"\n  ],\n  \"grant_types_supported\": [\n    \"authorization_code\",\n    \"implicit\"\n  ],\n  \"code_challenge_methods_supported\": [\n    \"plain\",\n    \"S256\"\n  ]\n\x7d".data = '[' :: "\n    \"code\",\n    \"token\"\n  ],\n  \"grant_types_supported\": [\n    \"authorization_code\",\n    \"implicit\"\n  ],\n  \"code_challenge_methods_supported\": [\n    \"plain\",\n    \"S256\"\n  ]\n\x7d".data := by simp [skipWs, isWsChar]
  have heq4_1 : skipWs "\n    \"token\"\n  ],\n  \"grant_types_supported\": [\n    \"authorization_code\",\n    \"implicit\"\n  ],\n  \"code_challenge_methods_supported\": [\n    \"plain\",\n    \"S256\"\n  ]\n\x7d".data = '"' :: ("token".data ++ '"' :: "\n  ],\n  \"grant_types_supported\": [\n    \"authorization_code\",\n    \"implicit\"\n  ],\n  \"code_challenge_methods_supported\": [\n    \"plain\",\n    \"S256\"\n  ]\n\x7d".data) := by simp [skipWs, isWsChar]
  have hes4_1 : parseStrBody [] ("token".data ++ '"' :: "\n  ],\n  \"grant_types_supported\": [\n    \"authorization_code\",\n    \"implicit\"\n  ],\n  \"code_challenge_methods_supported\": [\n    \"plain\",\n    \"S256\"\n  ]\n\x7d".data) = some ("token".data, "\n  ],\n  \"grant_types_supported\": [\n    \"authorization_code\",\n    \"implicit\"\n  ],\n  \"code_challenge_methods_supported\": [\n    \"plain\",\n    \"S256\"\n  ]\n\x7d".data) :=
    parseStrBody_run "token".data "\n  ],\n  \"grant_types_supported\": [\n    \"authorization_code\",\n    \"implicit\"\n  ],\n  \"code_challenge_methods_supported\": [\n    \"plain\",\n    \"S256\"\n  ]\n\x7d".data (by decide)
  have hel4_1 : skipWs "\n  ],\n  \"grant_types_supported\": [\n    \"authorization_code\",\n    \"implicit\"\n  ],\n  \"code_challenge_methods_supported\": [\n    \"plain\",\n    \"S256\"\n  ]\n\x7d".data = ']' :: ",\n  \"grant_types_supported\": [\n    \"authorization_code\",\n    \"implicit\"\n  ],\n  \"code_challenge_methods_supported\": [\n    \"plain\",\n    \"S256\"\n  ]\n\x7d".data := by simp [skipWs, isWsChar]
  have ha4_1 : parseArrLoop "\n    \"token\"\n  ],\n  \"grant_types_supported\": [\n    \"authorization_code\",\n    \"implicit\"\n  ],\n  \"code_challenge_methods_supported\": [\n    \"plain\",\n    \"S256\"\n  ]\n\x7d".data = some (["token".data], ",\n  \"grant_types_supported\": [\n    \"authorization_code\",\n    \"implicit\"\n  ],\n  \"code_challenge_methods_supported\": [\n    \"plain\",\n    \"S256\"\n  ]\n\x7d".data) :=
    parseArrLoop_last_eq heq4_1 hes4_1 hel4_1
  have heq4_0 : skipWs "\n    \"code\",\n    \"token\"\n  ],\n  \"grant_types_supported\": [\n    \"authorization_code\",\n    \"implicit\"\n  ],\n  \"code_challenge_methods_supported\": [\n    \"plain\",\n    \"S256\"\n  ]\n\x7d".data = '"' :: ("code".data ++ '"' :: ",\n    \"token\"\n  ],\n  \"grant_types_supported\": [\n    \"authorization_code\",\n    \"implicit\"\n  ],\n  \"code_challenge_methods_supported\": [\n    \"plain\",\n    \"S256\"\n  ]\n\x7d".data) := by simp [skipWs, isWsChar]
  have hes4_0 : parseStrBody [] ("code".data ++ '"' :: ",\n    \"token\"\n  ],\n  \"grant_types_supported\": [\n    \"authorization_code\",\n    \"implicit\"\n  ],\n  \"code_challenge_methods_supported\": [\n    \"plain\",\n    \"S256\"\n  ]\n\x7d".data) = some ("code".data, ",\n    \"token\"\n  ],\n  \"grant_types_supported\": [\n    \"authorization_code\",\n    \"implicit\"\n  ],\n  \"code_challenge_methods_supported\": [\n    \"plain\",\n    \"S256\"\n  ]\n\x7d".data) :=
    parseStrBody_run "code".data ",\n    \"token\"\n  ],\n  \"grant_types_supported\": [\n    \"authorization_code\",\n    \"implicit\"\n  ],\n  \"code_challenge_methods_supported\": [\n    \"plain\",\n    \"S256\"\n  ]\n\x7d".data (by decide)
  have hen4_0 : skipWs ",\n    \"token\"\n  ],\n  \"grant_types_supported\": [\n    \"authorization_code\",\n    \"implicit\"\n  ],\n  \"code_challenge_methods_supported\": [\n    \"plain\",\n    \"S256\"\n  ]\n\x7d".data = ',' :: "\n    \"token\"\n  ],\n  \"grant_types_supported\": [\n    \"authorization_code\",\n    \"implicit\"\n  ],\n  \"code_challenge_methods_supported\": [\n    \"plain\",\n    \"S256\"\n  ]\n\x7d".data := by simp [skipWs, isWsChar]
  have ha4_0 : parseArrLoop "\n    \"code\",\n    \"token\"\n  ],\n  \"grant_types_supported\": [\n    \"authorization_code\",\n    \"implicit\"\n  ],\n  \"code_challenge_methods_supported\": [\n    \"plain\",\n    \"S256\"\n  ]\n\x7d".data = some (["code".data, "token".data], ",\n  \"grant_types_supported\": [\n    \"authorization_code\",\n    \"implicit\"\n  ],\n  \"code_challenge_methods_supported\": [\n    \"plain\",\n    \"S256\"\n  ]\n\x7d".data) :=
    parseArrLoop_cons_eq heq4_0 hes4_0 hen4_0 ha4_1
  have hv4 : parseValue " [\n    \"code\",\n    \"token\"\n  ],\n  \"grant_types_supported\": [\n    \"authorization_code\",\n    \"implicit\"\n  ],\n  \"code_challenge_methods_supported\": [\n    \"plain\",\n    \"S256\"\n  ]\n\x7d".data = some (JVal.arr ["code".data, "token".data], ",\n  \"grant_types_supported\": [\n    \"authorization_code\",\n    \"implicit\"\n  ],\n  \"code_challenge_methods_supported\": [\n    \"plain\",\n    \"S256\"\n  ]\n\x7d".data) :=
    parseValue_arr_eq hvb4 heq4_0 (by decide) ha4_0
  have hsep4 : skipWs ",\n  \"grant_types_supported\": [\n    \"authorization_code\",\n    \"implicit\"\n  ],\n  \"code_challenge_methods_supported\": [\n    \"plain\",\n    \"S256\"\n  ]\n\x7d".data = ',' :: "\n  \"grant_types_supported\": [\n    \"authorization_code\",\n    \"implicit\"\n  ],\n  \"code_challenge_methods_supported\": [\n    \"plain\",\n    \"S256\"\n  ]\n\x7d".data := by simp [skipWs, isWsChar]
  have hf4 : parseFields "\n  \"response_types_supported\": [\n    \"code\",\n    \"token\"\n  ],\n  \"grant_types_supported\": [\n    \"authorization_code\",\n    \"implicit\"\n  ],\n  \"code_challenge_methods_supported\": [\n    \"plain\",\n    \"S256\"\n  ]\n\x7d".data = some ([("response_types_supported".data, JVal.arr ["code".data, "token".data]), ("grant_types_supported".data, JVal.arr ["authorization_code".data, "implicit".data]), ("code_challenge_methods_supported".data, JVal.arr ["plain".data, "S256".data])], ([] : List Char)) :=
    parseFields_cons_eq hq4 hk4 hc4 hv4 hsep4 hf5
  have hq3 : skipWs "\n  \"scopes_supported\": [\n    \"user:check-access\",\n    \"user:full\",\n    \"user:info\",\n    \"user:list-projects\",\n    \"user:list-scoped-projects\"\n  ],\n  \"response_types_supported\": [\n    \"code\",\n    \"token\"\n  ],\n  \"grant_types_supported\": [\n    \"authorization_code\",\n    \"implicit\"\n  ],\n  \"code_challenge_methods_supported\": [\n    \"plain\",\n    \"S256\"\n  ]\n\x7d".data = '"' :: ("scopes_supported".data ++ '"' :: ": [\n    \"user:check-access\",\n    \"user:full\",\n    \"user:info\",\n    \"user:list-projects\",\n    \"user:list-scoped-projects\"\n  ],\n  \"response_types_supported\": [\n    \"code\",\n    \"token\"\n  ],\n  \"grant_types_supported\": [\n    \"authorization_code\",\n    \"implicit\"\n  ],\n  \"code_challenge_methods_supported\": [\n    \"plain\",\n    \"S256\"\n  ]\n\x7d".data) := by simp [skipWs, isWsChar]
  have hk3 : parseStrBody [] ("scopes_supported".data ++ '"' :: ": [\n    \"user:check-access\",\n    \"user:full\",\n    \"user:info\",\n    \"user:list-projects\",\n    \"user:list-scoped-projects\"\n  ],\n  \"response_types_supported\": [\n    \"code\",\n    \"token\"\n  ],\n  \"grant_types_supported\": [\n    \"authorization_code\",\n    \"implicit\"\n  ],\n  \"code_challenge_methods_supported\": [\n    \"plain\",\n    \"S256\"\n  ]\n\x7d".data) = some ("scopes_supported".data, ": [\n    \"user:check-access\",\n    \"user:full\",\n    \"user:info\",\n    \"user:list-projects\",\n    \"user:list-scoped-projects\"\n  ],\n  \"response_types_supported\": [\n    \"code\",\n    \"token\"\n  ],\n  \"grant_types_supported\": [\n    \"authorization_code\",\n    \"implicit\"\n  ],\n  \"code_challenge_methods_supported\": [\n    \"plain\",\n    \"S256\"\n  ]\n\x7d".data) :=
    parseStrBody_run "scopes_supported".data ": [\n    \"user:check-access\",\n    \"user:full\",\n    \"user:info\",\n    \"user:list-projects\",\n    \"user:list-scoped-projects\"\n  ],\n  \"response_types_supported\": [\n    \"code\",\n    \"token\"\n  ],\n  \"grant_types_supported\": [\n    \"authorization_code\",\n    \"implicit\"\n  ],\n  \"code_challenge_methods_supported\": [\n    \"plain\",\n    \"S256\"\n  ]\n\x7d".data (by decide)
  have hc3 : skipWs ": [\n    \"user:check-access\",\n    \"user:full\",\n    \"user:info\",\n    \"user:list-projects\",\n    \"user:list-scoped-projects\"\n  ],\n  \"response_types_supported\": [\n    \"code\",\n    \"token\"\n  ],\n  \"grant_types_supported\": [\n    \"authorization_code\",\n    \"implicit\"\n  ],\n  \"code_challenge_methods_supported\": [\n    \"plain\",\n    \"S256\"\n  ]\n\x7d".data = ':' :: " [\n    \"user:check-access\",\n    \"user:full\",\n    \"user:info\",\n    \"user:list-projects\",\n    \"user:list-scoped-projects\"\n  ],\n  \"response_types_supported\": [\n    \"code\",\n    \"token\"\n  ],\n  \"grant_types_supported\": [\n    \"authorization_code\",\n    \"implicit\"\n  ],\n  \"code_challenge_methods_supported\": [\n    \"plain\",\n    \"S256\"\n  ]\n\x7d".data := by simp [skipWs, isWsChar]
  have hvb3 : skipWs " [\n    \"user:check-access\",\n    \"user:full\",\n    \"user:info\",\n    \"user:list-projects\",\n    \"user:list-scoped-projects\"\n  ],\n  \"response_types_supported\": [\n    \"code\",\n    \"token\"\n  ],\n  \"grant_types_supported\": [\n    \"authorization_code\",\n    \"implicit\"\n  ],\n  \"code_challenge_methods_supported\": [\n    \"plain\",\n    \"S256\"\n  ]\n\x7d".data = '[' :: "\n    \"user:check-access\",\n    \"user:full\",\n    \"user:info\",\n    \"user:list-projects\",\n    \"user:list-scoped-projects\"\n  ],\n  \"response_types_supported\": [\n    \"code\",\n    \"token\"\n  ],\n  \"grant_types_supported\": [\n    \"authorization_code\",\n    \"implicit\"\n  ],\n  \"code_challenge_methods_supported\": [\n    \"plain\",\n    \"S256\"\n  ]\n\x7d".data := by simp [skipWs, isWsChar]
  have heq3_4 : skipWs "\n    \"user:list-scoped-projects\"\n  ],\n  \"response_types_supported\": [\n    \"code\",\n    \"token\"\n  ],\n  \"grant_types_supported\": [\n    \"authorization_code\",\n    \"implicit\"\n  ],\n  \"code_challenge_methods_supported\": [\n    \"plain\",\n    \"S256\"\n  ]\n\x7d".data = '"' :: ("user:list-scoped-projects".data ++ '"' :: "\n  ],\n  \"response_types_supported\": [\n    \"code\",\n    \"token\"\n  ],\n  \"grant_types_supported\": [\n    \"authorization_code\",\n    \"implicit\"\n  ],\n  \"code_challenge_methods_supported\": [\n    \"plain\",\n    \"S256\"\n  ]\n\x7d".data) := by simp [skipWs, isWsChar]
  have hes3_4 : parseStrBody [] ("user:list-scoped-projects".data ++ '"' :: "\n  ],\n  \"response_types_supported\": [\n    \"code\",\n    \"token\"\n  ],\n  \"grant_types_supported\": [\n    \"authorization_code\",\n    \"implicit\"\n  ],\n  \"code_challenge_methods_supported\": [\n    \"plain\",\n    \"S256\"\n  ]\n\x7d".data) = some ("user:list-scoped-projects".data, "\n  ],\n  \"response_types_supported\": [\n    \"code\",\n    \"token\"\n  ],\n  \"grant_types_supported\": [\n    \"authorization_code\",\n    \"implicit\"\n  ],\n  \"code_challenge_methods_supported\": [\n    \"plain\",\n    \"S256\"\n  ]\n\x7d".data) :=
    parseStrBody_run "user:list-scoped-projects".data "\n  ],\n  \"response_types_supported\": [\n    \"code\",\n    \"token\"\n  ],\n  \"grant_types_supported\": [\n    \"authorization_code\",\n    \"implicit\"\n  ],\n  \"code_challenge_methods_supported\": [\n    \"plain\",\n    \"S256\"\n  ]\n\x7d".data (by decide)
  have hel3_4 : skipWs "\n  ],\n  \"response_types_supported\": [\n    \"code\",\n    \"token\"\n  ],\n  \"grant_types_supported\": [\n    \"authorization_code\",\n    \"implicit\"\n  ],\n  \"code_challenge_methods_supported\": [\n    \"plain\",\n    \"S256\"\n  ]\n\x7d".data = ']' :: ",\n  \"response_types_supported\": [\n    \"code\",\n    \"token\"\n  ],\n  \"grant_types_supported\": [\n    \"authorization_code\",\n    \"implicit\"\n  ],\n  \"code_challenge_methods_supported\": [\n    \"plain\",\n    \"S256\"\n  ]\n\x7d".data := by simp [skipWs, isWsChar]
  have ha3_4 : parseArrLoop "\n    \"user:list-scoped-projects\"\n  ],\n  \"response_types_supported\": [\n    \"code\",\n    \"token\"\n  ],\n  \"grant_types_supported\": [\n    \"authorization_code\",\n    \"implicit\"\n  ],\n  \"code_challenge_methods_supported\": [\n    \"plain\",\n    \"S256\"\n  ]\n\x7d".data = some (["user:list-scoped-projects".data], ",\n  \"response_types_supported\": [\n    \"code\",\n    \"token\"\n  ],\n  \"grant_types_supported\": [\n    \"authorization_code\",\n    \"implicit\"\n  ],\n  \"code_challenge_methods_supported\": [\n    \"plain\",\n    \"S256\"\n  ]\n\x7d".data) :=
    parseArrLoop_last_eq heq3_4 hes3_4 hel3_4
  have heq3_3 : skipWs "\n    \"user:list-projects\",\n    \"user:list-scoped-projects\"\n  ],\n  \"response_types_supported\": [\n    \"code\",\n    \"token\"\n  ],\n  \"grant_types_supported\": [\n    \"authorization_code\",\n    \"implicit\"\n  ],\n  \"code_challenge_methods_supported\": [\n    \"plain\",\n    \"S256\"\n  ]\n\x7d".data = '"' :: ("user:list-projects".data ++ '"' :: ",\n    \"user:list-scoped-projects\"\n  ],\n  \"response_types_supported\": [\n    \"code\",\n    \"token\"\n  ],\n  \"grant_types_supported\": [\n    \"authorization_code\",\n    \"implicit\"\n  ],\n  \"code_challenge_methods_supported\": [\n    \"plain\",\n    \"S256\"\n  ]\n\x7d".data) := by simp [skipWs, isWsChar]
  have hes3_3 : parseStrBody [] ("user:list-projects".data ++ '"' :: ",\n    \"user:list-scoped-projects\"\n  ],\n  \"response_types_supported\": [\n    \"code\",\n    \"token\"\n  ],\n  \"grant_types_supported\": [\n    \"authorization_code\",\n    \"implicit\"\n  ],\n  \"code_challenge_methods_supported\": [\n    \"plain\",\n    \"S256\"\n  ]\n\x7d".data) = some ("user:list-projects".data, ",\n    \"user:list-scoped-projects\"\n  ],\n  \"response_types_supported\": [\n    \"code\",\n    \"token\"\n  ],\n  \"grant_types_supported\": [\n    \"authorization_code\",\n    \"implicit\"\n  ],\n  \"code_challenge_methods_supported\": [\n    \"plain\",\n    \"S256\"\n  ]\n\x7d".data) :=
    parseStrBody_run "user:list-projects".data ",\n    \"user:list-scoped-projects\"\n  ],\n  \"response_types_supported\": [\n    \"code\",\n    \"token\"\n  ],\n  \"grant_types_supported\": [\n    \"authorization_code\",\n    \"implicit\"\n  ],\n  \"code_challenge_methods_supported\": [\n    \"plain\",\n    \"S256\"\n  ]\n\x7d".data (by decide)
  have hen3_3 : skipWs ",\n    \"user:list-scoped-projects\"\n  ],\n  \"response_types_supported\": [\n    \"code\",\n    \"token\"\n  ],\n  \"grant_types_supported\": [\n    \"authorization_code\",\n    \"implicit\"\n  ],\n  \"code_challenge_methods_supported\": [\n    \"plain\",\n    \"S256\"\n  ]\n\x7d".data = ',' :: "\n    \"user:list-scoped-projects\"\n  ],\n  \"response_types_supported\": [\n    \"code\",\n    \"token\"\n  ],\n  \"grant_types_supported\": [\n    \"authorization_code\",\n    \"implicit\"\n  ],\n  \"code_challenge_methods_supported\": [\n    \"plain\",\n    \"S256\"\n  ]\n\x7d".data := by simp [skipWs, isWsChar]
  have ha3_3 : parseArrLoop "\n    \"user:list-projects\",\n    \"user:list-scoped-projects\"\n  ],\n  \"response_types_supported\": [\n    \"code\",\n    \"token\"\n  ],\n  \"grant_types_supported\": [\n    \"authorization_code\",\n    \"implicit\"\n  ],\n  \"code_challenge_methods_supported\": [\n    \"plain\",\n    \"S256\"\n  ]\n\x7d".data = some (["user:list-projects".data, "user:list-scoped-projects".data], ",\n  \"response_types_supported\": [\n    \"code\",\n    \"token\"\n  ],\n  \"grant_types_supported\": [\n    \"authorization_code\",\n    \"implicit\"\n  ],\n  \"code_challenge_methods_supported\": [\n    \"plain\",\n    \"S256\"\n  ]\n\x7d".data) :=
    parseArrLoop_cons_eq heq3_3 hes3_3 hen3_3 ha3_4
  have heq3_2 : skipWs "\n    \"user:info\",\n    \"user:list-projects\",\n    \"user:list-scoped-projects\"\n  ],\n  \"response_types_supported\": [\n    \"code\",\n    \"token\"\n  ],\n  \"grant_types_supported\": [\n    \"authorization_code\",\n    \"implicit\"\n  ],\n  \"code_challenge_methods_supported\": [\n    \"plain\",\n    \"S256\"\n  ]\n\x7d".data = '"' :: ("user:info".data ++ '"' :: ",\n    \"user:list-projects\",\n    \"user:list-scoped-projects\"\n  ],\n  \"response_types_supported\": [\n    \"code\",\n    \"token\"\n  ],\n  \"grant_types_supported\": [\n    \"authorization_code\",\n    \"implicit\"\n  ],\n  \"code_challenge_methods_supported\": [\n    \"plain\",\n    \"S256\"\n  ]\n\x7d".data) := by simp [skipWs, isWsChar]
  have hes3_2 : parseStrBody [] ("user:info".data ++ '"' :: ",\n    \"user:list-projects\",\n    \"user:list-scoped-projects\"\n  ],\n  \"response_types_supported\": [\n    \"code\",\n    \"token\"\n  ],\n  \"grant_types_supported\": [\n    \"authorization_code\",\n    \"implicit\"\n  ],\n  \"code_challenge_methods_supported\": [\n    \"plain\",\n    \"S256\"\n  ]\n\x7d".data) = some ("user:info".data, ",\n    \"user:list-projects\",\n    \"user:list-scoped-projects\"\n  ],\n  \"response_types_supported\": [\n    \"code\",\n    \"token\"\n  ],\n  \"grant_types_supported\": [\n    \"authorization_code\",\n    \"implicit\"\n  ],\n  \"code_challenge_methods_supported\": [\n    \"plain\",\n    \"S256\"\n  ]\n\x7d".data) :=
    parseStrBody_run "user:info".data ",\n    \"user:list-projects\",\n    \"user:list-scoped-projects\"\n  ],\n  \"response_types_supported\": [\n    \"code\",\n    \"token\"\n  ],\n  \"grant_types_supported\": [\n    \"authorization_code\",\n    \"implicit\"\n  ],\n  \"code_challenge_methods_supported\": [\n    \"plain\",\n    \"S256\"\n  ]\n\x7d".data (by decide)
  have hen3_2 : skipWs ",\n    \"user:list-projects\",\n    \"user:list-scoped-projects\"\n  ],\n  \"response_types_supported\": [\n    \"code\",\n    \"token\"\n  ],\n  \"grant_types_supported\": [\n    \"authorization_code\",\n    \"implicit\"\n  ],\n  \"code_challenge_methods_supported\": [\n    \"plain\",\n    \"S256\"\n  ]\n\x7d".data = ',' :: "\n    \"user:list-projects\",\n    \"user:list-scoped-projects\"\n  ],\n  \"response_types_supported\": [\n    \"code\",\n    \"token\"\n  ],\n  \"grant_types_supported\": [\n    \"authorization_code\",\n    \"implicit\"\n  ],\n  \"code_challenge_methods_supported\": [\n    \"plain\",\n    \"S256\"\n  ]\n\x7d".data := by simp [skipWs, isWsChar]
  have ha3_2 : parseArrLoop "\n    \"user:info\",\n    \"user:list-projects\",\n    \"user:list-scoped-projects\"\n  ],\n  \"response_types_supported\": [\n    \"code\",\n    \"token\"\n  ],\n  \"grant_types_supported\": [\n    \"authorization_code\",\n    \"implicit\"\n  ],\n  \"code_challenge_methods_supported\": [\n    \"plain\",\n    \"S256\"\n  ]\n\x7d".data = some (["user:info".data, "user:list-projects".data, "user:list-scoped-projects".data], ",\n  \"response_types_supported\": [\n    \"code\",\n    \"token\"\n  ],\n  \"grant_types_supported\": [\n    \"authorization_code\",\n    \"implicit\"\n  ],\n  \"code_challenge_methods_supported\": [\n    \"plain\",\n    \"S256\"\n  ]\n\x7d".data) :=
    parseArrLoop_cons_eq heq3_2 hes3_2 hen3_2 ha3_3
  have heq3_1 : skipWs "\n    \"user:full\",\n    \"user:info\",\n    \"user:list-projects\",\n    \"user:list-scoped-projects\"\n  ],\n  \"response_types_supported\": [\n    \"code\",\n    \"token\"\n  ],\n  \"grant_types_supported\": [\n    \"authorization_code\",\n    \"implicit\"\n  ],\n  \"code_challenge_methods_supported\": [\n    \"plain\",\n    \"S256\"\n  ]\n\x7d".data = '"' :: ("user:full".data ++ '"' :: ",\n    \"user:info\",\n    \"user:list-projects\",\n    \"user:list-scoped-projects\"\n  ],\n  \"response_types_supported\": [\n    \"code\",\n    \"token\"\n  ],\n  \"grant_types_supported\": [\n    \"authorization_code\",\n    \"implicit\"\n  ],\n  \"code_challenge_methods_supported\": [\n    \"plain\",\n    \"S256\"\n  ]\n\x7d".data) := by simp [skipWs, isWsChar]
  have hes3_1 : parseStrBody [] ("user:full".data ++ '"' :: ",\n    \"user:info\",\n    \"user:list-projects\",\n    \"user:list-scoped-projects\"\n  ],\n  \"response_types_supported\": [\n    \"code\",\n    \"token\"\n  ],\n  \"grant_types_supported\": [\n    \"authorization_code\",\n    \"implicit\"\n  ],\n  \"code_challenge_methods_supported\": [\n    \"plain\",\n    \"S256\"\n  ]\n\x7d".data) = some ("user:full".data, ",\n    \"user:info\",\n    \"user:list-projects\",\n    \"user:list-scoped-projects\"\n  ],\n  \"response_types_supported\": [\n    \"code\",\n    \"token\"\n  ],\n  \"grant_types_supported\": [\n    \"authorization_code\",\n    \"implicit\"\n  ],\n  \"code_challenge_methods_supported\": [\n    \"plain\",\n    \"S256\"\n  ]\n\x7d".data) :=
    parseStrBody_run "user:full".data ",\n    \"user:info\",\n    \"user:list-projects\",\n    \"user:list-scoped-projects\"\n  ],\n  \"response_types_supported\": [\n    \"code\",\n    \"token\"\n  ],\n  \"grant_types_supported\": [\n    \"authorization_code\",\n    \"implicit\"\n  ],\n  \"code_challenge_methods_supported\": [\n    \"plain\",\n    \"S256\"\n  ]\n\x7d".data (by decide)
  have hen3_1 : skipWs ",\n    \"user:info\",\n    \"user:list-projects\",\n    \"user:list-scoped-projects\"\n  ],\n  \"response_types_supported\": [\n    \"code\",\n    \"token\"\n  ],\n  \"grant_types_supported\": [\n    \"authorization_code\",\n    \"implicit\"\n  ],\n  \"code_challenge_methods_supported\": [\n    \"plain\",\n    \"S256\"\n  ]\n\x7d".data = ',' :: "\n    \"user:info\",\n    \"user:list-projects\",\n    \"user:list-scoped-projects\"\n  ],\n  \"response_types_supported\": [\n    \"code\",\n    \"token\"\n  ],\n  \"grant_types_supported\": [\n    \"authorization_code\",\n    \"implicit\"\n  ],\n  \"code_challenge_methods_supported\": [\n    \"plain\",\n    \"S256\"\n  ]\n\x7d".data := by simp [skipWs, isWsChar]
  have ha3_1 : parseArrLoop "\n    \"user:full\",\n    \"user:info\",\n    \"user:list-projects\",\n    \"user:list-scoped-projects\"\n  ],\n  \"response_types_supported\": [\n    \"code\",\n    \"token\"\n  ],\n  \"grant_types_supported\": [\n    \"authorization_code\",\n    \"implicit\"\n  ],\n  \"code_challenge_methods_supported\": [\n    \"plain\",\n    \"S256\"\n  ]\n\x7d".data = some (["user:full".data, "user:info".data, "user:list-projects".data, "user:list-scoped-projects".data], ",\n  \"response_types_supported\": [\n    \"code\",\n    \"token\"\n  ],\n  \"grant_types_supported\": [\n    \"authorization_code\",\n    \"implicit\"\n  ],\n  \"code_challenge_methods_supported\": [\n    \"plain\",\n    \"S256\"\n  ]\n\x7d".data) :=
    parseArrLoop_cons_eq heq3_1 hes3_1 hen3_1 ha3_2
  have heq3_0 : skipWs "\n    \"user:check-access\",\n    \"user:full\",\n    \"user:info\",\n    \"user:list-projects\",\n    \"user:list-scoped-projects\"\n  ],\n  \"response_types_supported\": [\n    \"code\",\n    \"token\"\n  ],\n  \"grant_types_supported\": [\n    \"authorization_code\",\n    \"implicit\"\n  ],\n  \"code_challenge_methods_supported\": [\n    \"plain\",\n    \"S256\"\n  ]\n\x7d".data = '"' :: ("user:check-access".data ++ '"' :: ",\n    \"user:full\",\n    \"user:info\",\n    \"user:list-projects\",\n    \"user:list-scoped-projects\"\n  ],\n  \"response_types_supported\": [\n    \"code\",\n    \"token\"\n  ],\n  \"grant_types_supported\": [\n    \"authorization_code\",\n    \"implicit\"\n  ],\n  \"code_challenge_methods_supported\": [\n    \"plain\",\n    \"S256\"\n  ]\n\x7d".data) := by simp [skipWs, isWsChar]
  have hes3_0 : parseStrBody [] ("user:check-access".data ++ '"' :: ",\n    \"user:full\",\n    \"user:info\",\n    \"user:list-projects\",\n    \"user:list-scoped-projects\"\n  ],\n  \"response_types_supported\": [\n    \"code\",\n    \"token\"\n  ],\n  \"grant_types_supported\": [\n    \"authorization_code\",\n    \"implicit\"\n  ],\n  \"code_challenge_methods_supported\": [\n    \"plain\",\n    \"S256\"\n  ]\n\x7d".data) = some ("user:check-access".data, ",\n    \"user:full\",\n    \"user:info\",\n    \"user:list-projects\",\n    \"user:list-scoped-projects\"\n  ],\n  \"response_types_supported\": [\n    \"code\",\n    \"token\"\n  ],\n  \"grant_types_supported\": [\n    \"authorization_code\",\n    \"implicit\"\n  ],\n  \"code_challenge_methods_supported\": [\n    \"plain\",\n    \"S256\"\n  ]\n\x7d".data) :=
    parseStrBody_run "user:check-access".data ",\n    \"user:full\",\n    \"user:info\",\n    \"user:list-projects\",\n    \"user:list-scoped-projects\"\n  ],\n  \"response_types_supported\": [\n    \"code\",\n    \"token\"\n  ],\n  \"grant_types_supported\": [\n    \"authorization_code\",\n    \"implicit\"\n  ],\n  \"code_challenge_methods_supported\": [\n    \"plain\",\n    \"S256\"\n  ]\n\x7d".data (by decide)
  have hen3_0 : skipWs ",\n    \"user:full\",\n    \"user:info\",\n    \"user:list-projects\",\n    \"user:list-scoped-projects\"\n  ],\n  \"response_types_supported\": [\n    \"code\",\n    \"token\"\n  ],\n  \"grant_types_supported\": [\n    \"authorization_code\",\n    \"implicit\"\n  ],\n  \"code_challenge_methods_supported\": [\n    \"plain\",\n    \"S256\"\n  ]\n\x7d".data = ',' :: "\n    \"user:full\",\n    \"user:info\",\n    \"user:list-projects\",\n    \"user:list-scoped-projects\"\n  ],\n  \"response_types_supported\": [\n    \"code\",\n    \"token\"\n  ],\n  \"grant_types_supported\": [\n    \"authorization_code\",\n    \"implicit\"\n  ],\n  \"code_challenge_methods_supported\": [\n    \"plain\",\n    \"S256\"\n  ]\n\x7d".data := by simp [skipWs, isWsChar]
  have ha3_0 : parseArrLoop "\n    \"user:check-access\",\n    \"user:full\",\n    \"user:info\",\n    \"user:list-projects\",\n    \"user:list-scoped-projects\"\n  ],\n  \"response_types_supported\": [\n    \"code\",\n    \"token\"\n  ],\n  \"grant_types_supported\": [\n    \"authorization_code\",\n    \"implicit\"\n  ],\n  \"code_challenge_methods_supported\": [\n    \"plain\",\n    \"S256\"\n  ]\n\x7d".data = some (["user:check-access".data, "user:full".data, "user:info".data, "user:list-projects".data, "user:list-scoped-projects".data], ",\n  \"response_types_supported\": [\n    \"code\",\n    \"token\"\n  ],\n  \"grant_types_supported\": [\n    \"authorization_code\",\n    \"implicit\"\n  ],\n  \"code_challenge_methods_supported\": [\n    \"plain\",\n    \"S256\"\n  ]\n\x7d".data) :=
    parseArrLoop_cons_eq heq3_0 hes3_0 hen3_0 ha3_1
  have hv3 : parseValue " [\n    \"user:check-access\",\n    \"user:full\",\n    \"user:info\",\n    \"user:list-projects\",\n    \"user:list-scoped-projects\"\n  ],\n  \"response_types_supported\": [\n    \"code\",\n    \"token\"\n  ],\n  \"grant_types_supported\": [\n    \"authorization_code\",\n    \"implicit\"\n  ],\n  \"code_challenge_methods_supported\": [\n    \"plain\",\n    \"S256\"\n  ]\n\x7d".data = some (JVal.arr ["user:check-access".data, "user:full".data, "user:info".data, "user:list-projects".data, "user:list-scoped-projects".data], ",\n  \"response_types_supported\": [\n    \"code\",\n    \"token\"\n  ],\n  \"grant_types_supported\": [\n    \"authorization_code\",\n    \"implicit\"\n  ],\n  \"code_challenge_methods_supported\": [\n    \"plain\",\n    \"S256\"\n  ]\n\x7d".data) :=
    parseValue_arr_eq hvb3 heq3_0 (by decide) ha3_0
  have hsep3 : skipWs ",\n  \"response_types_supported\": [\n    \"code\",\n    \"token\"\n  ],\n  \"grant_types_supported\": [\n    \"authorization_code\",\n    \"implicit\"\n  ],\n  \"code_challenge_methods_supported\": [\n    \"plain\",\n    \"S256\"\n  ]\n\x7d".data = ',' :: "\n  \"response_types_supported\": [\n    \"code\",\n    \"token\"\n  ],\n  \"grant_types_supported\": [\n    \"authorization_code\",\n    \"implicit\"\n  ],\n  \"code_challenge_methods_supported\": [\n    \"plain\",\n    \"S256\"\n  ]\n\x7d".data := by simp [skipWs, isWsChar]
  have hf3 : parseFields "\n  \"scopes_supported\": [\n    \"user:check-access\",\n    \"user:full\",\n    \"user:info\",\n    \"user:list-projects\",\n    \"user:list-scoped-projects\"\n  ],\n  \"response_types_supported\": [\n    \"code\",\n    \"token\"\n  ],\n  \"grant_types_supported\": [\n    \"authorization_code\",\n    \"implicit\"\n  ],\n  \"code_challenge_methods_supported\": [\n    \"plain\",\n    \"S256\"\n  ]\n\x7d".data = some ([("scopes_supported".data, JVal.arr ["user:check-access".data, "user:full".data, "user:info".data, "user:list-projects".data, "user:list-scoped-projects".data]), ("response_types_supported".data, JVal.arr ["code".data, "token".data]), ("grant_types_supported".data, JVal.arr ["authorization_code".data, "implicit".data]), ("code_challenge_methods_supported".data, JVal.arr ["plain".data, "S256".data])], ([] : List Char)) :=
    parseFields_cons_eq hq3 hk3 hc3 hv3 hsep3 hf4
  have hq2 : skipWs ("\n  \"token_endpoint\": \"https://".data ++ h.data ++ "/oauth/token\",\n  \"scopes_supported\": [\n    \"user:check-access\",\n    \"user:full\",\n    \"user:info\",\n    \"user:list-projects\",\n    \"user:list-scoped-projects\"\n  ],\n  \"response_types_supported\": [\n    \"code\",\n    \"token\"\n  ],\n  \"grant_types_supported\": [\n    \"authorization_code\",\n    \"implicit\"\n  ],\n  \"code_challenge_methods_supported\": [\n    \"plain\",\n    \"S256\"\n  ]\n\x7d".data) = '"' :: ("token_endpoint".data ++ '"' :: (": \"https://".data ++ h.data ++ "/oauth/token\",\n  \"scopes_supported\": [\n    \"user:check-access\",\n    \"user:full\",\n    \"user:info\",\n    \"user:list-projects\",\n    \"user:list-scoped-projects\"\n  ],\n  \"response_types_supported\": [\n    \"code\",\n    \"token\"\n  ],\n  \"grant_types_supported\": [\n    \"authorization_code\",\n    \"implicit\"\n  ],\n  \"code_challenge_methods_supported\": [\n    \"plain\",\n    \"S256\"\n  ]\n\x7d".data)) := by simp [skipWs, isWsChar]
  have hk2 : parseStrBody [] ("token_endpoint".data ++ '"' :: (": \"https://".data ++ h.data ++ "/oauth/token\",\n  \"scopes_supported\": [\n    \"user:check-access\",\n    \"user:full\",\n    \"user:info\",\n    \"user:list-projects\",\n    \"user:list-scoped-projects\"\n  ],\n  \"response_types_supported\": [\n    \"code\",\n    \"token\"\n  ],\n  \"grant_types_supported\": [\n    \"authorization_code\",\n    \"implicit\"\n  ],\n  \"code_challenge_methods_supported\": [\n    \"plain\",\n    \"S256\"\n  ]\n\x7d".data)) = some ("token_endpoint".data, (": \"https://".data ++ h.data ++ "/oauth/token\",\n  \"scopes_supported\": [\n    \"user:check-access\",\n    \"user:full\",\n    \"user:info\",\n    \"user:list-projects\",\n    \"user:list-scoped-projects\"\n  ],\n  \"response_types_supported\": [\n    \"code\",\n    \"token\"\n  ],\n  \"grant_types_supported\": [\n    \"authorization_code\",\n    \"implicit\"\n  ],\n  \"code_challenge_methods_supported\": [\n    \"plain\",\n    \"S256\"\n  ]\n\x7d".data)) :=
    parseStrBody_run "token_endpoint".data (": \"https://".data ++ h.data ++ "/oauth/token\",\n  \"scopes_supported\": [\n    \"user:check-access\",\n    \"user:full\",\n    \"user:info\",\n    \"user:list-projects\",\n    \"user:list-scoped-projects\"\n  ],\n  \"response_types_supported\": [\n    \"code\",\n    \"token\"\n  ],\n  \"grant_types_supported\": [\n    \"authorization_code\",\n    \"implicit\"\n  ],\n  \"code_challenge_methods_supported\": [\n    \"plain\",\n    \"S256\"\n  ]\n\x7d".data) (by decide)
  have hc2 : skipWs (": \"https://".data ++ h.data ++ "/oauth/token\",\n  \"scopes_supported\": [\n    \"user:check-access\",\n    \"user:full\",\n    \"user:info\",\n    \"user:list-projects\",\n    \"user:list-scoped-projects\"\n  ],\n  \"response_types_supported\": [\n    \"code\",\n    \"token\"\n  ],\n  \"grant_types_supported\": [\n    \"authorization_code\",\n    \"implicit\"\n  ],\n  \"code_challenge_methods_supported\": [\n    \"plain\",\n    \"S256\"\n  ]\n\x7d".data) = ':' :: (" \"https://".data ++ h.data ++ "/oauth/token\",\n  \"scopes_supported\": [\n    \"user:check-access\",\n    \"user:full\",\n    \"user:info\",\n    \"user:list-projects\",\n    \"user:list-scoped-projects\"\n  ],\n  \"response_types_supported\": [\n    \"code\",\n    \"token\"\n  ],\n  \"grant_types_supported\": [\n    \"authorization_code\",\n    \"implicit\"\n  ],\n  \"code_challenge_methods_supported\": [\n    \"plain\",\n    \"S256\"\n  ]\n\x7d".data) := by simp [skipWs, isWsChar]
  have hvq2 : skipWs (" \"https://".data ++ h.data ++ "/oauth/token\",\n  \"scopes_supported\": [\n    \"user:check-access\",\n    \"user:full\",\n    \"user:info\",\n    \"user:list-projects\",\n    \"user:list-scoped-projects\"\n  ],\n  \"response_types_supported\": [\n    \"code\",\n    \"token\"\n  ],\n  \"grant_types_supported\": [\n    \"authorization_code\",\n    \"implicit\"\n  ],\n  \"code_challenge_methods_supported\": [\n    \"plain\",\n    \"S256\"\n  ]\n\x7d".data) = '"' :: (("https://".data ++ h.data ++ "/oauth/token".data) ++ '"' :: ",\n  \"scopes_supported\": [\n    \"user:check-access\",\n    \"user:full\",\n    \"user:info\",\n    \"user:list-projects\",\n    \"user:list-scoped-projects\"\n  ],\n  \"response_types_supported\": [\n    \"code\",\n    \"token\"\n  ],\n  \"grant_types_supported\": [\n    \"authorization_code\",\n    \"implicit\"\n  ],\n  \"code_challenge_methods_supported\": [\n    \"plain\",\n    \"S256\"\n  ]\n\x7d".data) := by simp [skipWs, isWsChar]
  have hvs2 : parseStrBody [] (("https://".data ++ h.data ++ "/oauth/token".data) ++ '"' :: ",\n  \"scopes_supported\": [\n    \"user:check-access\",\n    \"user:full\",\n    \"user:info\",\n    \"user:list-projects\",\n    \"user:list-scoped-projects\"\n  ],\n  \"response_types_supported\": [\n    \"code\",\n    \"token\"\n  ],\n  \"grant_types_supported\": [\n    \"authorization_code\",\n    \"implicit\"\n  ],\n  \"code_challenge_methods_supported\": [\n    \"plain\",\n    \"S256\"\n  ]\n\x7d".data) = some (("https://".data ++ h.data ++ "/oauth/token".data), ",\n  \"scopes_supported\": [\n    \"user:check-access\",\n    \"user:full\",\n    \"user:info\",\n    \"user:list-projects\",\n    \"user:list-scoped-projects\"\n  ],\n  \"response_types_supported\": [\n    \"code\",\n    \"token\"\n  ],\n  \"grant_types_supported\": [\n    \"authorization_code\",\n    \"implicit\"\n  ],\n  \"code_challenge_methods_supported\": [\n    \"plain\",\n    \"S256\"\n  ]\n\x7d".data) :=
    parseStrBody_run ("https://".data ++ h.data ++ "/oauth/token".data) ",\n  \"scopes_supported\": [\n    \"user:check-access\",\n    \"user:full\",\n    \"user:info\",\n    \"user:list-projects\",\n    \"user:list-scoped-projects\"\n  ],\n  \"response_types_supported\": [\n    \"code\",\n    \"token\"\n  ],\n  \"grant_types_supported\": [\n    \"authorization_code\",\n    \"implicit\"\n  ],\n  \"code_challenge_methods_supported\": [\n    \"plain\",\n    \"S256\"\n  ]\n\x7d".data (all_goodChar_append "https://".data (h.data ++ "/oauth/token".data) (by decide) (all_goodChar_append h.data "/oauth/token".data hg (by decide)))
  have hv2 : parseValue (" \"https://".data ++ h.data ++ "/oauth/token\",\n  \"scopes_supported\": [\n    \"user:check-access\",\n    \"user:full\",\n    \"user:info\",\n    \"user:list-projects\",\n    \"user:list-scoped-projects\"\n  ],\n  \"response_types_supported\": [\n    \"code\",\n    \"token\"\n  ],\n  \"grant_types_supported\": [\n    \"authorization_code\",\n    \"implicit\"\n  ],\n  \"code_challenge_methods_supported\": [\n    \"plain\",\n    \"S256\"\n  ]\n\x7d".data) = some (JVal.str ("https://".data ++ h.data ++ "/oauth/token".data), ",\n  \"scopes_supported\": [\n    \"user:check-access\",\n    \"user:full\",\n    \"user:info\",\n    \"user:list-projects\",\n    \"user:list-scoped-projects\"\n  ],\n  \"response_types_supported\": [\n    \"code\",\n    \"token\"\n  ],\n  \"grant_types_supported\": [\n    \"authorization_code\",\n    \"implicit\"\n  ],\n  \"code_challenge_methods_supported\": [\n    \"plain\",\n    \"S256\"\n  ]\n\x7d".data) :=
    parseValue_str_eq hvq2 hvs2
  have hsep2 : skipWs ",\n  \"scopes_supported\": [\n    \"user:check-access\",\n    \"user:full\",\n    \"user:info\",\n    \"user:list-projects\",\n    \"user:list-scoped-projects\"\n  ],\n  \"response_types_supported\": [\n    \"code\",\n    \"token\"\n  ],\n  \"grant_types_supported\": [\n    \"authorization_code\",\n    \"implicit\"\n  ],\n  \"code_challenge_methods_supported\": [\n    \"plain\",\n    \"S256\"\n  ]\n\x7d".data = ',' :: "\n  \"scopes_supported\": [\n    \"user:check-access\",\n    \"user:full\",\n    \"user:info\",\n    \"user:list-projects\",\n    \"user:list-scoped-projects\"\n  ],\n  \"response_types_supported\": [\n    \"code\",\n    \"token\"\n  ],\n  \"grant_types_supported\": [\n    \"authorization_code\",\n    \"implicit\"\n  ],\n  \"code_challenge_methods_supported\": [\n    \"plain\",\n    \"S256\"\n  ]\n\x7d".data := by simp [skipWs, isWsChar]
  have hf2 : parseFields ("\n  \"token_endpoint\": \"https://".data ++ h.data ++ "/oauth/token\",\n  \"scopes_supported\": [\n    \"user:check-access\",\n    \"user:full\",\n    \"user:info\",\n    \"user:list-projects\",\n    \"user:list-scoped-projects\"\n  ],\n  \"response_types_supported\": [\n    \"code\",\n    \"token\"\n  ],\n  \"grant_types_supported\": [\n    \"authorization_code\",\n    \"implicit\"\n  ],\n  \"code_challenge_methods_supported\": [\n    \"plain\",\n    \"S256\"\n  ]\n\x7d".data) = some ([("token_endpoint".data, JVal.str ("https://".data ++ h.data ++ "/oauth/token".data)), ("scopes_supported".data, JVal.arr ["user:check-access".data, "user:full".data, "user:info".data, "user:list-projects".data, "user:list-scoped-projects".data]), ("response_types_supported".data, JVal.arr ["code".data, "token".data]), ("grant_types_supported".data, JVal.arr ["authorization_code".data, "implicit".data]), ("code_challenge_methods_supported".data, JVal.arr ["plain".data, "S256".data])], ([] : List Char)) :=
    parseFields_cons_eq hq2 hk2 hc2 hv2 hsep2 hf3
  have hq1 : skipWs ("\n  \"authorization_endpoint\": \"https://".data ++ h.data ++ "/oauth/authorize\",\n  \"token_endpoint\": \"https://".data ++ h.data ++ "/oauth/token\",\n  \"scopes_supported\": [\n    \"user:check-access\",\n    \"user:full\",\n    \"user:info\",\n    \"user:list-projects\",\n    \"user:list-scoped-projects\"\n  ],\n  \"response_types_supported\": [\n    \"code\",\n    \"token\"\n  ],\n  \"grant_types_supported\": [\n    \"authorization_code\",\n    \"implicit\"\n  ],\n  \"code_challenge_methods_supported\": [\n    \"plain\",\n    \"S256\"\n  ]\n\x7d".data) = '"' :: ("authorization_endpoint".data ++ '"' :: (": \"https://".data ++ h.data ++ "/oauth/authorize\",\n  \"token_endpoint\": \"https://".data ++ h.data ++ "/oauth/token\",\n  \"scopes_supported\": [\n    \"user:check-access\",\n    \"user:full\",\n    \"user:info\",\n    \"user:list-projects\",\n    \"user:list-scoped-projects\"\n  ],\n  \"response_types_supported\": [\n    \"code\",\n    \"token\"\n  ],\n  \"grant_types_supported\": [\n    \"authorization_code\",\n    \"implicit\"\n  ],\n  \"code_challenge_methods_supported\": [\n    \"plain\",\n    \"S256\"\n  ]\n\x7d".data)) := by simp [skipWs, isWsChar]
  have hk1 : parseStrBody [] ("authorization_endpoint".data ++ '"' :: (": \"https://".data ++ h.data ++ "/oauth/authorize\",\n  \"token_endpoint\": \"https://".data ++ h.data ++ "/oauth/token\",\n  \"scopes_supported\": [\n    \"user:check-access\",\n    \"user:full\",\n    \"user:info\",\n    \"user:list-projects\",\n    \"user:list-scoped-projects\"\n  ],\n  \"response_types_supported\": [\n    \"code\",\n    \"token\"\n  ],\n  \"grant_types_supported\": [\n    \"authorization_code\",\n    \"implicit\"\n  ],\n  \"code_challenge_methods_supported\": [\n    \"plain\",\n    \"S256\"\n  ]\n\x7d".data)) = some ("authorization_endpoint".data, (": \"https://".data ++ h.data ++ "/oauth/authorize\",\n  \"token_endpoint\": \"https://".data ++ h.data ++ "/oauth/token\",\n  \"scopes_supported\": [\n    \"user:check-access\",\n    \"user:full\",\n    \"user:info\",\n    \"user:list-projects\",\n    \"user:list-scoped-projects\"\n  ],\n  \"response_types_supported\": [\n    \"code\",\n    \"token\"\n  ],\n  \"grant_types_supported\": [\n    \"authorization_code\",\n    \"implicit\"\n  ],\n  \"code_challenge_methods_supported\": [\n    \"plain\",\n    \"S256\"\n  ]\n\x7d".data)) :=
    parseStrBody_run "authorization_endpoint".data (": \"https://".data ++ h.data ++ "/oauth/authorize\",\n  \"token_endpoint\": \"https://".data ++ h.data ++ "/oauth/token\",\n  \"scopes_supported\": [\n    \"user:check-access\",\n    \"user:full\",\n    \"user:info\",\n    \"user:list-projects\",\n    \"user:list-scoped-projects\"\n  ],\n  \"response_types_supported\": [\n    \"code\",\n    \"token\"\n  ],\n  \"grant_types_supported\": [\n    \"authorization_code\",\n    \"implicit\"\n  ],\n  \"code_challenge_methods_supported\": [\n    \"plain\",\n    \"S256\"\n  ]\n\x7d".data) (by decide)
  have hc1 : skipWs (": \"https://".data ++ h.data ++ "/oauth/authorize\",\n  \"token_endpoint\": \"https://".data ++ h.data ++ "/oauth/token\",\n  \"scopes_supported\": [\n    \"user:check-access\",\n    \"user:full\",\n    \"user:info\",\n    \"user:list-projects\",\n    \"user:list-scoped-projects\"\n  ],\n  \"response_types_supported\": [\n    \"code\",\n    \"token\"\n  ],\n  \"grant_types_supported\": [\n    \"authorization_code\",\n    \"implicit\"\n  ],\n  \"code_challenge_methods_supported\": [\n    \"plain\",\n    \"S256\"\n  ]\n\x7d".data) = ':' :: (" \"https://".data ++ h.data ++ "/oauth/authorize\",\n  \"token_endpoint\": \"https://".data ++ h.data ++ "/oauth/token\",\n  \"scopes_supported\": [\n    \"user:check-access\",\n    \"user:full\",\n    \"user:info\",\n    \"user:list-projects\",\n    \"user:list-scoped-projects\"\n  ],\n  \"response_types_supported\": [\n    \"code\",\n    \"token\"\n  ],\n  \"grant_types_supported\": [\n    \"authorization_code\",\n    \"implicit\"\n  ],\n  \"code_challenge_methods_supported\": [\n    \"plain\",\n    \"S256\"\n  ]\n\x7d".data) := by simp [skipWs, isWsChar]
  have hvq1 : skipWs (" \"https://".data ++ h.data ++ "/oauth/authorize\",\n  \"token_endpoint\": \"https://".data ++ h.data ++ "/oauth/token\",\n  \"scopes_supported\": [\n    \"user:check-access\",\n    \"user:full\",\n    \"user:info\",\n    \"user:list-projects\",\n    \"user:list-scoped-projects\"\n  ],\n  \"response_types_supported\": [\n    \"code\",\n    \"token\"\n  ],\n  \"grant_types_supported\": [\n    \"authorization_code\",\n    \"implicit\"\n  ],\n  \"code_challenge_methods_supported\": [\n    \"plain\",\n    \"S256\"\n  ]\n\x7d".data) = '"' :: (("https://".data ++ h.data ++ "/oauth/authorize".data) ++ '"' :: (",\n  \"token_endpoint\": \"https://".data ++ h.data ++ "/oauth/token\",\n  \"scopes_supported\": [\n    \"user:check-access\",\n    \"user:full\",\n    \"user:info\",\n    \"user:list-projects\",\n    \"user:list-scoped-projects\"\n  ],\n  \"response_types_supported\": [\n    \"code\",\n    \"token\"\n  ],\n  \"grant_types_supported\": [\n    \"authorization_code\",\n    \"implicit\"\n  ],\n  \"code_challenge_methods_supported\": [\n    \"plain\",\n    \"S256\"\n  ]\n\x7d".data)) := by simp [skipWs, isWsChar]
  have hvs1 : parseStrBody [] (("https://".data ++ h.data ++ "/oauth/authorize".data) ++ '"' :: (",\n  \"token_endpoint\": \"https://".data ++ h.data ++ "/oauth/token\",\n  \"scopes_supported\": [\n    \"user:check-access\",\n    \"user:full\",\n    \"user:info\",\n    \"user:list-projects\",\n    \"user:list-scoped-projects\"\n  ],\n  \"response_types_supported\": [\n    \"code\",\n    \"token\"\n  ],\n  \"grant_types_supported\": [\n    \"authorization_code\",\n    \"implicit\"\n  ],\n  \"code_challenge_methods_supported\": [\n    \"plain\",\n    \"S256\"\n  ]\n\x7d".data)) = some (("https://".data ++ h.data ++ "/oauth/authorize".data), (",\n  \"token_endpoint\": \"https://".data ++ h.data ++ "/oauth/token\",\n  \"scopes_supported\": [\n    \"user:check-access\",\n    \"user:full\",\n    \"user:info\",\n    \"user:list-projects\",\n    \"user:list-scoped-projects\"\n  ],\n  \"response_types_supported\": [\n    \"code\",\n    \"token\"\n  ],\n  \"grant_types_supported\": [\n    \"authorization_code\",\n    \"implicit\"\n  ],\n  \"code_challenge_methods_supported\": [\n    \"plain\",\n    \"S256\"\n  ]\n\x7d".data)) :=
    parseStrBody_run ("https://".data ++ h.data ++ "/oauth/authorize".data) (",\n  \"token_endpoint\": \"https://".data ++ h.data ++ "/oauth/token\",\n  \"scopes_supported\": [\n    \"user:check-access\",\n    \"user:full\",\n    \"user:info\",\n    \"user:list-projects\",\n    \"user:list-scoped-projects\"\n  ],\n  \"response_types_supported\": [\n    \"code\",\n    \"token\"\n  ],\n  \"grant_types_supported\": [\n    \"authorization_code\",\n    \"implicit\"\n  ],\n  \"code_challenge_methods_supported\": [\n    \"plain\",\n    \"S256\"\n  ]\n\x7d".data) (all_goodChar_append "https://".data (h.data ++ "/oauth/authorize".data) (by decide) (all_goodChar_append h.data "/oauth/authorize".data hg (by decide)))
  have hv1 : parseValue (" \"https://".data ++ h.data ++ "/oauth/authorize\",\n  \"token_endpoint\": \"https://".data ++ h.data ++ "/oauth/token\",\n  \"scopes_supported\": [\n    \"user:check-access\",\n    \"user:full\",\n    \"user:info\",\n    \"user:list-projects\",\n    \"user:list-scoped-projects\"\n  ],\n  \"response_types_supported\": [\n    \"code\",\n    \"token\"\n  ],\n  \"grant_types_supported\": [\n    \"authorization_code\",\n    \"implicit\"\n  ],\n  \"code_challenge_methods_supported\": [\n    \"plain\",\n    \"S256\"\n  ]\n\x7d".data) = some (JVal.str ("https://".data ++ h.data ++ "/oauth/authorize".data), (",\n  \"token_endpoint\": \"https://".data ++ h.data ++ "/oauth/token\",\n  \"scopes_supported\": [\n    \"user:check-access\",\n    \"user:full\",\n    \"user:info\",\n    \"user:list-projects\",\n    \"user:list-scoped-projects\"\n  ],\n  \"response_types_supported\": [\n    \"code\",\n    \"token\"\n  ],\n  \"grant_types_supported\": [\n    \"authorization_code\",\n    \"implicit\"\n  ],\n  \"code_challenge_methods_supported\": [\n    \"plain\",\n    \"S256\"\n  ]\n\x7d".data)) :=
    parseValue_str_eq hvq1 hvs1
  have hsep1 : skipWs (",\n  \"token_endpoint\": \"https://".data ++ h.data ++ "/oauth/token\",\n  \"scopes_supported\": [\n    \"user:check-access\",\n    \"user:full\",\n    \"user:info\",\n    \"user:list-projects\",\n    \"user:list-scoped-projects\"\n  ],\n  \"response_types_supported\": [\n    \"code\",\n    \"token\"\n  ],\n  \"grant_types_supported\": [\n    \"authorization_code\",\n    \"implicit\"\n  ],\n  \"code_challenge_methods_supported\": [\n    \"plain\",\n    \"S256\"\n  ]\n\x7d".data) = ',' :: ("\n  \"token_endpoint\": \"https://".data ++ h.data ++ "/oauth/token\",\n  \"scopes_supported\": [\n    \"user:check-access\",\n    \"user:full\",\n    \"user:info\",\n    \"user:list-projects\",\n    \"user:list-scoped-projects\"\n  ],\n  \"response_types_supported\": [\n    \"code\",\n    \"token\"\n  ],\n  \"grant_types_supported\": [\n    \"authorization_code\",\n    \"implicit\"\n  ],\n  \"code_challenge_methods_supported\": [\n    \"plain\",\n    \"S256\"\n  ]\n\x7d".data) := by simp [skipWs, isWsChar]
  have hf1 : parseFields ("\n  \"authorization_endpoint\": \"https://".data ++ h.data ++ "/oauth/authorize\",\n  \"token_endpoint\": \"https://".data ++ h.data ++ "/oauth/token\",\n  \"scopes_supported\": [\n    \"user:check-access\",\n    \"user:full\",\n    \"user:info\",\n    \"user:list-projects\",\n    \"user:list-scoped-projects\"\n  ],\n  \"response_types_supported\": [\n    \"code\",\n    \"token\"\n  ],\n  \"grant_types_supported\": [\n    \"authorization_code\",\n    \"implicit\"\n  ],\n  \"code_challenge_methods_supported\": [\n    \"plain\",\n    \"S256\"\n  ]\n\x7d".data) = some ([("authorization_endpoint".data, JVal.str ("https://".data ++ h.data ++ "/oauth/authorize".data)), ("token_endpoint".data, JVal.str ("https://".data ++ h.data ++ "/oauth/token".data)), ("scopes_supported".data, JVal.arr ["user:check-access".data, "user:full".data, "user:info".data, "user:list-projects".data, "user:list-scoped-projects".data]), ("response_types_supported".data, JVal.arr ["code".data, "token".data]), ("grant_types_supported".data, JVal.arr ["authorization_code".data, "implicit".data]), ("code_challenge_methods_supported".data, JVal.arr ["plain".data, "S256".data])], ([] : List Char)) :=
    parseFields_cons_eq hq1 hk1 hc1 hv1 hsep1 hf2
  have hq0 : skipWs ("\n  \"issuer\": \"https://".data ++ h.data ++ "\",\n  \"authorization_endpoint\": \"https://".data ++ h.data ++ "/oauth/authorize\",\n  \"token_endpoint\": \"https://".data ++ h.data ++ "/oauth/token\",\n  \"scopes_supported\": [\n    \"user:check-access\",\n    \"user:full\",\n    \"user:info\",\n    \"user:list-projects\",\n    \"user:list-scoped-projects\"\n  ],\n  \"response_types_supported\": [\n    \"code\",\n    \"token\"\n  ],\n  \"grant_types_supported\": [\n    \"authorization_code\",\n    \"implicit\"\n  ],\n  \"code_challenge_methods_supported\": [\n    \"plain\",\n    \"S256\"\n  ]\n\x7d".data) = '"' :: ("issuer".data ++ '"' :: (": \"https://".data ++ h.data ++ "\",\n  \"authorization_endpoint\": \"https://".data ++ h.data ++ "/oauth/authorize\",\n  \"token_endpoint\": \"https://".data ++ h.data ++ "/oauth/token\",\n  \"scopes_supported\": [\n    \"user:check-access\",\n    \"user:full\",\n    \"user:info\",\n    \"user:list-projects\",\n    \"user:list-scoped-projects\"\n  ],\n  \"response_types_supported\": [\n    \"code\",\n    \"token\"\n  ],\n  \"grant_types_supported\": [\n    \"authorization_code\",\n    \"implicit\"\n  ],\n  \"code_challenge_methods_supported\": [\n    \"plain\",\n    \"S256\"\n  ]\n\x7d".data)) := by simp [skipWs, isWsChar]
  have hk0 : parseStrBody [] ("issuer".data ++ '"' :: (": \"https://".data ++ h.data ++ "\",\n  \"authorization_endpoint\": \"https://".data ++ h.data ++ "/oauth/authorize\",\n  \"token_endpoint\": \"https://".data ++ h.data ++ "/oauth/token\",\n  \"scopes_supported\": [\n    \"user:check-access\",\n    \"user:full\",\n    \"user:info\",\n    \"user:list-projects\",\n    \"user:list-scoped-projects\"\n  ],\n  \"response_types_supported\": [\n    \"code\",\n    \"token\"\n  ],\n  \"grant_types_supported\": [\n    \"authorization_code\",\n    \"implicit\"\n  ],\n  \"code_challenge_methods_supported\": [\n    \"plain\",\n    \"S256\"\n  ]\n\x7d".data)) = some ("issuer".data, (": \"https://".data ++ h.data ++ "\",\n  \"authorization_endpoint\": \"https://".data ++ h.data ++ "/oauth/authorize\",\n  \"token_endpoint\": \"https://".data ++ h.data ++ "/oauth/token\",\n  \"scopes_supported\": [\n    \"user:check-access\",\n    \"user:full\",\n    \"user:info\",\n    \"user:list-projects\",\n    \"user:list-scoped-projects\"\n  ],\n  \"response_types_supported\": [\n    \"code\",\n    \"token\"\n  ],\n  \"grant_types_supported\": [\n    \"authorization_code\",\n    \"implicit\"\n  ],\n  \"code_challenge_methods_supported\": [\n    \"plain\",\n    \"S256\"\n  ]\n\x7d".data)) :=
    parseStrBody_run "issuer".data (": \"https://".data ++ h.data ++ "\",\n  \"authorization_endpoint\": \"https://".data ++ h.data ++ "/oauth/authorize\",\n  \"token_endpoint\": \"https://".data ++ h.data ++ "/oauth/token\",\n  \"scopes_supported\": [\n    \"user:check-access\",\n    \"user:full\",\n    \"user:info\",\n    \"user:list-projects\",\n    \"user:list-scoped-projects\"\n  ],\n  \"response_types_supported\": [\n    \"code\",\n    \"token\"\n  ],\n  \"grant_types_supported\": [\n    \"authorization_code\",\n    \"implicit\"\n  ],\n  \"code_challenge_methods_supported\": [\n    \"plain\",\n    \"S256\"\n  ]\n\x7d".data) (by decide)
  have hc0 : skipWs (": \"https://".data ++ h.data ++ "\",\n  \"authorization_endpoint\": \"https://".data ++ h.data ++ "/oauth/authorize\",\n  \"token_endpoint\": \"https://".data ++ h.data ++ "/oauth/token\",\n  \"scopes_supported\": [\n    \"user:check-access\",\n    \"user:full\",\n    \"user:info\",\n    \"user:list-projects\",\n    \"user:list-scoped-projects\"\n  ],\n  \"response_types_supported\": [\n    \"code\",\n    \"token\"\n  ],\n  \"grant_types_supported\": [\n    \"authorization_code\",\n    \"implicit\"\n  ],\n  \"code_challenge_methods_supported\": [\n    \"plain\",\n    \"S256\"\n  ]\n\x7d".data) = ':' :: (" \"https://".data ++ h.data ++ "\",\n  \"authorization_endpoint\": \"https://".data ++ h.data ++ "/oauth/authorize\",\n  \"token_endpoint\": \"https://".data ++ h.data ++ "/oauth/token\",\n  \"scopes_supported\": [\n    \"user:check-access\",\n    \"user:full\",\n    \"user:info\",\n    \"user:list-projects\",\n    \"user:list-scoped-projects\"\n  ],\n  \"response_types_supported\": [\n    \"code\",\n    \"token\"\n  ],\n  \"grant_types_supported\": [\n    \"authorization_code\",\n    \"implicit\"\n  ],\n  \"code_challenge_methods_supported\": [\n    \"plain\",\n    \"S256\"\n  ]\n\x7d".data) := by simp [skipWs, isWsChar]
  have hvq0 : skipWs (" \"https://".data ++ h.data ++ "\",\n  \"authorization_endpoint\": \"https://".data ++ h.data ++ "/oauth/authorize\",\n  \"token_endpoint\": \"https://".data ++ h.data ++ "/oauth/token\",\n  \"scopes_supported\": [\n    \"user:check-access\",\n    \"user:full\",\n    \"user:info\",\n    \"user:list-projects\",\n    \"user:list-scoped-projects\"\n  ],\n  \"response_types_supported\": [\n    \"code\",\n    \"token\"\n  ],\n  \"grant_types_supported\": [\n    \"authorization_code\",\n    \"implicit\"\n  ],\n  \"code_challenge_methods_supported\": [\n    \"plain\",\n    \"S256\"\n  ]\n\x7d".data) = '"' :: (("https://".data ++ h.data) ++ '"' :: (",\n  \"authorization_endpoint\": \"https://".data ++ h.data ++ "/oauth/authorize\",\n  \"token_endpoint\": \"https://".data ++ h.data ++ "/oauth/token\",\n  \"scopes_supported\": [\n    \"user:check-access\",\n    \"user:full\",\n    \"user:info\",\n    \"user:list-projects\",\n    \"user:list-scoped-projects\"\n  ],\n  \"response_types_supported\": [\n    \"code\",\n    \"token\"\n  ],\n  \"grant_types_supported\": [\n    \"authorization_code\",\n    \"implicit\"\n  ],\n  \"code_challenge_methods_supported\": [\n    \"plain\",\n    \"S256\"\n  ]\n\x7d".data)) := by simp [skipWs, isWsChar]
  have hvs0 : parseStrBody [] (("https://".data ++ h.data) ++ '"' :: (",\n  \"authorization_endpoint\": \"https://".data ++ h.data ++ "/oauth/authorize\",\n  \"token_endpoint\": \"https://".data ++ h.data ++ "/oauth/token\",\n  \"scopes_supported\": [\n    \"user:check-access\",\n    \"user:full\",\n    \"user:info\",\n    \"user:list-projects\",\n    \"user:list-scoped-projects\"\n  ],\n  \"response_types_supported\": [\n    \"code\",\n    \"token\"\n  ],\n  \"grant_types_supported\": [\n    \"authorization_code\",\n    \"implicit\"\n  ],\n  \"code_challenge_methods_supported\": [\n    \"plain\",\n    \"S256\"\n  ]\n\x7d".data)) = some (("https://".data ++ h.data), (",\n  \"authorization_endpoint\": \"https://".data ++ h.data ++ "/oauth/authorize\",\n  \"token_endpoint\": \"https://".data ++ h.data ++ "/oauth/token\",\n  \"scopes_supported\": [\n    \"user:check-access\",\n    \"user:full\",\n    \"user:info\",\n    \"user:list-projects\",\n    \"user:list-scoped-projects\"\n  ],\n  \"response_types_supported\": [\n    \"code\",\n    \"token\"\n  ],\n  \"grant_types_supported\": [\n    \"authorization_code\",\n    \"implicit\"\n  ],\n  \"code_challenge_methods_supported\": [\n    \"plain\",\n    \"S256\"\n  ]\n\x7d".data)) :=
    parseStrBody_run ("https://".data ++ h.data) (",\n  \"authorization_endpoint\": \"https://".data ++ h.data ++ "/oauth/authorize\",\n  \"token_endpoint\": \"https://".data ++ h.data ++ "/oauth/token\",\n  \"scopes_supported\": [\n    \"user:check-access\",\n    \"user:full\",\n    \"user:info\",\n    \"user:list-projects\",\n    \"user:list-scoped-projects\"\n  ],\n  \"response_types_supported\": [\n    \"code\",\n    \"token\"\n  ],\n  \"grant_types_supported\": [\n    \"authorization_code\",\n    \"implicit\"\n  ],\n  \"code_challenge_methods_supported\": [\n    \"plain\",\n    \"S256\"\n  ]\n\x7d".data) (all_goodChar_append "https://".data h.data (by decide) hg)
  have hv0 : parseValue (" \"https://".data ++ h.data ++ "\",\n  \"authorization_endpoint\": \"https://".data ++ h.data ++ "/oauth/authorize\",\n  \"token_endpoint\": \"https://".data ++ h.data ++ "/oauth/token\",\n  \"scopes_supported\": [\n    \"user:check-access\",\n    \"user:full\",\n    \"user:info\",\n    \"user:list-projects\",\n    \"user:list-scoped-projects\"\n  ],\n  \"response_types_supported\": [\n    \"code\",\n    \"token\"\n  ],\n  \"grant_types_supported\": [\n    \"authorization_code\",\n    \"implicit\"\n  ],\n  \"code_challenge_methods_supported\": [\n    \"plain\",\n    \"S256\"\n  ]\n\x7d".data) = some (JVal.str ("https://".data ++ h.data), (",\n  \"authorization_endpoint\": \"https://".data ++ h.data ++ "/oauth/authorize\",\n  \"token_endpoint\": \"https://".data ++ h.data ++ "/oauth/token\",\n  \"scopes_supported\": [\n    \"user:check-access\",\n    \"user:full\",\n    \"user:info\",\n    \"user:list-projects\",\n    \"user:list-scoped-projects\"\n  ],\n  \"response_types_supported\": [\n    \"code\",\n    \"token\"\n  ],\n  \"grant_types_supported\": [\n    \"authorization_code\",\n    \"implicit\"\n  ],\n  \"code_challenge_methods_supported\": [\n    \"plain\",\n    \"S256\"\n  ]\n\x7d".data)) :=
    parseValue_str_eq hvq0 hvs0
  have hsep0 : skipWs (",\n  \"authorization_endpoint\": \"https://".data ++ h.data ++ "/oauth/authorize\",\n  \"token_endpoint\": \"https://".data ++ h.data ++ "/oauth/token\",\n  \"scopes_supported\": [\n    \"user:check-access\",\n    \"user:full\",\n    \"user:info\",\n    \"user:list-projects\",\n    \"user:list-scoped-projects\"\n  ],\n  \"response_types_supported\": [\n    \"code\",\n    \"token\"\n  ],\n  \"grant_types_supported\": [\n    \"authorization_code\",\n    \"implicit\"\n  ],\n  \"code_challenge_methods_supported\": [\n    \"plain\",\n    \"S256\"\n  ]\n\x7d".data) = ',' :: ("\n  \"authorization_endpoint\": \"https://".data ++ h.data ++ "/oauth/authorize\",\n  \"token_endpoint\": \"https://".data ++ h.data ++ "/oauth/token\",\n  \"scopes_supported\": [\n    \"user:check-access\",\n    \"user:full\",\n    \"user:info\",\n    \"user:list-projects\",\n    \"user:list-scoped-projects\"\n  ],\n  \"response_types_supported\": [\n    \"code\",\n    \"token\"\n  ],\n  \"grant_types_supported\": [\n    \"authorization_code\",\n    \"implicit\"\n  ],\n  \"code_challenge_methods_supported\": [\n    \"plain\",\n    \"S256\"\n  ]\n\x7d".data) := by simp [skipWs, isWsChar]
  have hf0 : parseFields ("\n  \"issuer\": \"https://".data ++ h.data ++ "\",\n  \"authorization_endpoint\": \"https://".data ++ h.data ++ "/oauth/authorize\",\n  \"token_endpoint\": \"https://".data ++ h.data ++ "/oauth/token\",\n  \"scopes_supported\": [\n    \"user:check-access\",\n    \"user:full\",\n    \"user:info\",\n    \"user:list-projects\",\n    \"user:list-scoped-projects\"\n  ],\n  \"response_types_supported\": [\n    \"code\",\n    \"token\"\n  ],\n  \"grant_types_supported\": [\n    \"authorization_code\",\n    \"implicit\"\n  ],\n  \"code_challenge_methods_supported\": [\n    \"plain\",\n    \"S256\"\n  ]\n\x7d".data) = some ([("issuer".data, JVal.str ("https://".data ++ h.data)), ("authorization_endpoint".data, JVal.str ("https://".data ++ h.data ++ "/oauth/authorize".data)), ("token_endpoint".data, JVal.str ("https://".data ++ h.data ++ "/oauth/token".data)), ("scopes_supported".data, JVal.arr ["user:check-access".data, "user:full".data, "user:info".data, "user:list-projects".data, "user:list-scoped-projects".data]), ("response_types_supported".data, JVal.arr ["code".data, "token".data]), ("grant_types_supported".data, JVal.arr ["authorization_code".data, "implicit".data]), ("code_challenge_methods_supported".data, JVal.arr ["plain".data, "S256".data])], ([] : List Char)) :=
    parseFields_cons_eq hq0 hk0 hc0 hv0 hsep0 hf1
  have hst : skipWs (getOAuthMetadata h).data = '\x7b' :: ("\n  \"issuer\": \"https://".data ++ h.data ++ "\",\n  \"authorization_endpoint\": \"https://".data ++ h.data ++ "/oauth/authorize\",\n  \"token_endpoint\": \"https://".data ++ h.data ++ "/oauth/token\",\n  \"scopes_supported\": [\n    \"user:check-access\",\n    \"user:full\",\n    \"user:info\",\n    \"user:list-projects\",\n    \"user:list-scoped-projects\"\n  ],\n  \"response_types_supported\": [\n    \"code\",\n    \"token\"\n  ],\n  \"grant_types_supported\": [\n    \"authorization_code\",\n    \"implicit\"\n  ],\n  \"code_challenge_methods_supported\": [\n    \"plain\",\n    \"S256\"\n  ]\n\x7d".data) := by
    simp [getOAuthMetadata, String.data_append, skipWs, isWsChar]
  have main : parseDocL (getOAuthMetadata h).data =
      some ([("issuer".data, JVal.str ("https://".data ++ h.data)), ("authorization_endpoint".data, JVal.str ("https://".data ++ h.data ++ "/oauth/authorize".data)), ("token_endpoint".data, JVal.str ("https://".data ++ h.data ++ "/oauth/token".data)), ("scopes_supported".data, JVal.arr ["user:check-access".data, "user:full".data, "user:info".data, "user:list-projects".data, "user:list-scoped-projects".data]), ("response_types_supported".data, JVal.arr ["code".data, "token".data]), ("grant_types_supported".data, JVal.arr ["authorization_code".data, "implicit".data]), ("code_challenge_methods_supported".data, JVal.arr ["plain".data, "S256".data])]) :=
    parseDocL_fields_eq hst hq0 (by decide) hf0 rfl
  rw [parseDoc, expectedMetadataObj]
  exact main

set_option maxRecDepth 8000 in
/-- With a host containing a quote character the generated "JSON" is not
valid: unmarshalling it fails (and `getMetadataStruct` would panic). -/
theorem parse_metadata_badhost : parseDoc (getOAuthMetadata "\"") = none := by
  have hst : skipWs (getOAuthMetadata "\"").data = '\x7b' :: "\n  \"issuer\": \"https://\"\",\n  \"authorization_endpoint\": \"https://\"/oauth/authorize\",\n  \"token_endpoint\": \"https://\"/oauth/token\",\n  \"scopes_supported\": [\n    \"user:check-access\",\n    \"user:full\",\n    \"user:info\",\n    \"user:list-projects\",\n    \"user:list-scoped-projects\"\n  ],\n  \"response_types_supported\": [\n    \"code\",\n    \"token\"\n  ],\n  \"grant_types_supported\": [\n    \"authorization_code\",\n    \"implicit\"\n  ],\n  \"code_challenge_methods_supported\": [\n    \"plain\",\n    \"S256\"\n  ]\n\x7d".data := by
    simp [getOAuthMetadata, String.data_append, skipWs, isWsChar]
  have hq0 : skipWs "\n  \"issuer\": \"https://\"\",\n  \"authorization_endpoint\": \"https://\"/oauth/authorize\",\n  \"token_endpoint\": \"https://\"/oauth/token\",\n  \"scopes_supported\": [\n    \"user:check-access\",\n    \"user:full\",\n    \"user:info\",\n    \"user:list-projects\",\n    \"user:list-scoped-projects\"\n  ],\n  \"response_types_supported\": [\n    \"code\",\n    \"token\"\n  ],\n  \"grant_types_supported\": [\n    \"authorization_code\",\n    \"implicit\"\n  ],\n  \"code_challenge_methods_supported\": [\n    \"plain\",\n    \"S256\"\n  ]\n\x7d".data = '"' :: ("issuer".data ++ '"' :: ": \"https://\"\",\n  \"authorization_endpoint\": \"https://\"/oauth/authorize\",\n  \"token_endpoint\": \"https://\"/oauth/token\",\n  \"scopes_supported\": [\n    \"user:check-access\",\n    \"user:full\",\n    \"user:info\",\n    \"user:list-projects\",\n    \"user:list-scoped-projects\"\n  ],\n  \"response_types_supported\": [\n    \"code\",\n    \"token\"\n  ],\n  \"grant_types_supported\": [\n    \"authorization_code\",\n    \"implicit\"\n  ],\n  \"code_challenge_methods_supported\": [\n    \"plain\",\n    \"S256\"\n  ]\n\x7d".data) := by
    simp [skipWs, isWsChar]
  have hk0 : parseStrBody [] ("issuer".data ++ '"' :: ": \"https://\"\",\n  \"authorization_endpoint\": \"https://\"/oauth/authorize\",\n  \"token_endpoint\": \"https://\"/oauth/token\",\n  \"scopes_supported\": [\n    \"user:check-access\",\n    \"user:full\",\n    \"user:info\",\n    \"user:list-projects\",\n    \"user:list-scoped-projects\"\n  ],\n  \"response_types_supported\": [\n    \"code\",\n    \"token\"\n  ],\n  \"grant_types_supported\": [\n    \"authorization_code\",\n    \"implicit\"\n  ],\n  \"code_challenge_methods_supported\": [\n    \"plain\",\n    \"S256\"\n  ]\n\x7d".data) = some ("issuer".data, ": \"https://\"\",\n  \"authorization_endpoint\": \"https://\"/oauth/authorize\",\n  \"token_endpoint\": \"https://\"/oauth/token\",\n  \"scopes_supported\": [\n    \"user:check-access\",\n    \"user:full\",\n    \"user:info\",\n    \"user:list-projects\",\n    \"user:list-scoped-projects\"\n  ],\n  \"response_types_supported\": [\n    \"code\",\n    \"token\"\n  ],\n  \"grant_types_supported\": [\n    \"authorization_code\",\n    \"implicit\"\n  ],\n  \"code_challenge_methods_supported\": [\n    \"plain\",\n    \"S256\"\n  ]\n\x7d".data) :=
    parseStrBody_run "issuer".data ": \"https://\"\",\n  \"authorization_endpoint\": \"https://\"/oauth/authorize\",\n  \"token_endpoint\": \"https://\"/oauth/token\",\n  \"scopes_supported\": [\n    \"user:check-access\",\n    \"user:full\",\n    \"user:info\",\n    \"user:list-projects\",\n    \"user:list-scoped-projects\"\n  ],\n  \"response_types_supported\": [\n    \"code\",\n    \"token\"\n  ],\n  \"grant_types_supported\": [\n    \"authorization_code\",\n    \"implicit\"\n  ],\n  \"code_challenge_methods_supported\": [\n    \"plain\",\n    \"S256\"\n  ]\n\x7d".data (by decide)
  have hc0 : skipWs ": \"https://\"\",\n  \"authorization_endpoint\": \"https://\"/oauth/authorize\",\n  \"token_endpoint\": \"https://\"/oauth/token\",\n  \"scopes_supported\": [\n    \"user:check-access\",\n    \"user:full\",\n    \"user:info\",\n    \"user:list-projects\",\n    \"user:list-scoped-projects\"\n  ],\n  \"response_types_supported\": [\n    \"code\",\n    \"token\"\n  ],\n  \"grant_types_supported\": [\n    \"authorization_code\",\n    \"implicit\"\n  ],\n  \"code_challenge_methods_supported\": [\n    \"plain\",\n    \"S256\"\n  ]\n\x7d".data = ':' :: " \"https://\"\",\n  \"authorization_endpoint\": \"https://\"/oauth/authorize\",\n  \"token_endpoint\": \"https://\"/oauth/token\",\n  \"scopes_supported\": [\n    \"user:check-access\",\n    \"user:full\",\n    \"user:info\",\n    \"user:list-projects\",\n    \"user:list-scoped-projects\"\n  ],\n  \"response_types_supported\": [\n    \"code\",\n    \"token\"\n  ],\n  \"grant_types_supported\": [\n    \"authorization_code\",\n    \"implicit\"\n  ],\n  \"code_challenge_methods_supported\": [\n    \"plain\",\n    \"S256\"\n  ]\n\x7d".data := by simp [skipWs, isWsChar]
  have hvq0 : skipWs " \"https://\"\",\n  \"authorization_endpoint\": \"https://\"/oauth/authorize\",\n  \"token_endpoint\": \"https://\"/oauth/token\",\n  \"scopes_supported\": [\n    \"user:check-access\",\n    \"user:full\",\n    \"user:info\",\n    \"user:list-projects\",\n    \"user:list-scoped-projects\"\n  ],\n  \"response_types_supported\": [\n    \"code\",\n    \"token\"\n  ],\n  \"grant_types_supported\": [\n    \"authorization_code\",\n    \"implicit\"\n  ],\n  \"code_challenge_methods_supported\": [\n    \"plain\",\n    \"S256\"\n  ]\n\x7d".data = '"' :: ("https://".data ++ '"' :: "\",\n  \"authorization_endpoint\": \"https://\"/oauth/authorize\",\n  \"token_endpoint\": \"https://\"/oauth/token\",\n  \"scopes_supported\": [\n    \"user:check-access\",\n    \"user:full\",\n    \"user:info\",\n    \"user:list-projects\",\n    \"user:list-scoped-projects\"\n  ],\n  \"response_types_supported\": [\n    \"code\",\n    \"token\"\n  ],\n  \"grant_types_supported\": [\n    \"authorization_code\",\n    \"implicit\"\n  ],\n  \"code_challenge_methods_supported\": [\n    \"plain\",\n    \"S256\"\n  ]\n\x7d".data) := by
    simp [skipWs, isWsChar]
  have hvs0 : parseStrBody [] ("https://".data ++ '"' :: "\",\n  \"authorization_endpoint\": \"https://\"/oauth/authorize\",\n  \"token_endpoint\": \"https://\"/oauth/token\",\n  \"scopes_supported\": [\n    \"user:check-access\",\n    \"user:full\",\n    \"user:info\",\n    \"user:list-projects\",\n    \"user:list-scoped-projects\"\n  ],\n  \"response_types_supported\": [\n    \"code\",\n    \"token\"\n  ],\n  \"grant_types_supported\": [\n    \"authorization_code\",\n    \"implicit\"\n  ],\n  \"code_challenge_methods_supported\": [\n    \"plain\",\n    \"S256\"\n  ]\n\x7d".data) = some ("https://".data, "\",\n  \"authorization_endpoint\": \"https://\"/oauth/authorize\",\n  \"token_endpoint\": \"https://\"/oauth/token\",\n  \"scopes_supported\": [\n    \"user:check-access\",\n    \"user:full\",\n    \"user:info\",\n    \"user:list-projects\",\n    \"user:list-scoped-projects\"\n  ],\n  \"response_types_supported\": [\n    \"code\",\n    \"token\"\n  ],\n  \"grant_types_supported\": [\n    \"authorization_code\",\n    \"implicit\"\n  ],\n  \"code_challenge_methods_supported\": [\n    \"plain\",\n    \"S256\"\n  ]\n\x7d".data) :=
    parseStrBody_run "https://".data "\",\n  \"authorization_endpoint\": \"https://\"/oauth/authorize\",\n  \"token_endpoint\": \"https://\"/oauth/token\",\n  \"scopes_supported\": [\n    \"user:check-access\",\n    \"user:full\",\n    \"user:info\",\n    \"user:list-projects\",\n    \"user:list-scoped-projects\"\n  ],\n  \"response_types_supported\": [\n    \"code\",\n    \"token\"\n  ],\n  \"grant_types_supported\": [\n    \"authorization_code\",\n    \"implicit\"\n  ],\n  \"code_challenge_methods_supported\": [\n    \"plain\",\n    \"S256\"\n  ]\n\x7d".data (by decide)
  have hv0 : parseValue " \"https://\"\",\n  \"authorization_endpoint\": \"https://\"/oauth/authorize\",\n  \"token_endpoint\": \"https://\"/oauth/token\",\n  \"scopes_supported\": [\n    \"user:check-access\",\n    \"user:full\",\n    \"user:info\",\n    \"user:list-projects\",\n    \"user:list-scoped-projects\"\n  ],\n  \"response_types_supported\": [\n    \"code\",\n    \"token\"\n  ],\n  \"grant_types_supported\": [\n    \"authorization_code\",\n    \"implicit\"\n  ],\n  \"code_challenge_methods_supported\": [\n    \"plain\",\n    \"S256\"\n  ]\n\x7d".data = some (JVal.str "https://".data, "\",\n  \"authorization_endpoint\": \"https://\"/oauth/authorize\",\n  \"token_endpoint\": \"https://\"/oauth/token\",\n  \"scopes_supported\": [\n    \"user:check-access\",\n    \"user:full\",\n    \"user:info\",\n    \"user:list-projects\",\n    \"user:list-scoped-projects\"\n  ],\n  \"response_types_supported\": [\n    \"code\",\n    \"token\"\n  ],\n  \"grant_types_supported\": [\n    \"authorization_code\",\n    \"implicit\"\n  ],\n  \"code_challenge_methods_supported\": [\n    \"plain\",\n    \"S256\"\n  ]\n\x7d".data) :=
    parseValue_str_eq hvq0 hvs0
  have hstop : skipWs "\",\n  \"authorization_endpoint\": \"https://\"/oauth/authorize\",\n  \"token_endpoint\": \"https://\"/oauth/token\",\n  \"scopes_supported\": [\n    \"user:check-access\",\n    \"user:full\",\n    \"user:info\",\n    \"user:list-projects\",\n    \"user:list-scoped-projects\"\n  ],\n  \"response_types_supported\": [\n    \"code\",\n    \"token\"\n  ],\n  \"grant_types_supported\": [\n    \"authorization_code\",\n    \"implicit\"\n  ],\n  \"code_challenge_methods_supported\": [\n    \"plain\",\n    \"S256\"\n  ]\n\x7d".data = '"' :: ",\n  \"authorization_endpoint\": \"https://\"/oauth/authorize\",\n  \"token_endpoint\": \"https://\"/oauth/token\",\n  \"scopes_supported\": [\n    \"user:check-access\",\n    \"user:full\",\n    \"user:info\",\n    \"user:list-projects\",\n    \"user:list-scoped-projects\"\n  ],\n  \"response_types_supported\": [\n    \"code\",\n    \"token\"\n  ],\n  \"grant_types_supported\": [\n    \"authorization_code\",\n    \"implicit\"\n  ],\n  \"code_challenge_methods_supported\": [\n    \"plain\",\n    \"S256\"\n  ]\n\x7d".data := by simp [skipWs, isWsChar]
  have hf0 : parseFields "\n  \"issuer\": \"https://\"\",\n  \"authorization_endpoint\": \"https://\"/oauth/authorize\",\n  \"token_endpoint\": \"https://\"/oauth/token\",\n  \"scopes_supported\": [\n    \"user:check-access\",\n    \"user:full\",\n    \"user:info\",\n    \"user:list-projects\",\n    \"user:list-scoped-projects\"\n  ],\n  \"response_types_supported\": [\n    \"code\",\n    \"token\"\n  ],\n  \"grant_types_supported\": [\n    \"authorization_code\",\n    \"implicit\"\n  ],\n  \"code_challenge_methods_supported\": [\n    \"plain\",\n    \"S256\"\n  ]\n\x7d".data = none :=
    parseFields_stop_eq hq0 hk0 hc0 hv0 hstop
  rw [parseDoc]
  exact parseDocL_fields_none hst hq0 (by decide) hf0

/- ### Operator conditions and the aggregation step of `sync` (part_000). -/

/-- Model of `operatorv1.OperatorCondition` restricted to the fields this controller
sets (`LastTransitionTime` is handled by the external status helper, not by
this code).  The Go zero value leaves `Reason`/`Message` empty. -/
structure OperatorCondition where
  type : String
  status : String
  reason : String := ""
  message : String := ""
deriving DecidableEq, Repr

/-- Character-wise comparison on the underlying character lists — the order
`sort.Strings` (byte-wise lexicographic) induces; the condition names are
ASCII, where byte order and character order coincide. -/
def charListLe : List Char → List Char → Bool
  | [], _ => true
  | _ :: _, [] => false
  | a :: as, b :: bs =>
    if a.val < b.val then true
    else if b.val < a.val then false
    else charListLe as bs

def strLe (a b : String) : Bool := charListLe a.data b.data

def sortedInsert (s : String) : List String → List String
  | [] => [s]
  | t :: ts => if strLe s t then s :: t :: ts else t :: sortedInsert s ts

/-- Sorting model for `sets.String.List()`, which returns the set's members
in sorted order. -/
def sortStrings (l : List String) : List String := l.foldr sortedInsert []

/-- Model of `knownConditionNames` (lines 61-66): all condition types used by this
controller, in the insertion order of the `sets.NewString` call. -/
def knownConditionNames : List String :=
  ["WellKnownRouteDegraded", "WellKnownAuthConfigDegraded",
   "WellKnownProgressing", "WellKnownAvailable"]

/-- Model of `knownConditionNames.List()`: the members sorted. -/
def knownConditionNamesList : List String := sortStrings knownConditionNames

/-- Model of `v1helpers.FindOperatorCondition` (library-go): pointer to the first
condition of the given type, nil when none matches. -/
def findOperatorCondition (conditions : List OperatorCondition) (conditionType : String) :
    Option OperatorCondition :=
  conditions.find? fun condition => decide (condition.type = conditionType)

/-- Model of `strings.HasSuffix`: `suf` is a suffix of `s`. -/
def leadsWith : List Char → List Char → Bool
  | _, [] => true
  | [], _ :: _ => false
  | a :: as, b :: bs => a == b && leadsWith as bs

def hasSuffix (s suf : String) : Bool := leadsWith s.data.reverse suf.data.reverse

/-- The per-type body of the aggregation loop of `sync` (lines 120-132):
default the condition of this type to status False — True when the type
name ends in "Available" — then overwrite it with a condition of the same
type found among this cycle's findings. -/
def updatedConditionFor (foundConditions : List OperatorCondition) (conditionType : String) :
    OperatorCondition :=
  let updatedCondition : OperatorCondition :=
    { type := conditionType
      status := if hasSuffix conditionType "Available" then "True" else "False" }
  match findOperatorCondition foundConditions conditionType with
  | some condition => condition
  | none => updatedCondition

/-- The aggregation step of `sync` (lines 119-133): one updated condition
per known type, in the order `knownConditionNames.List()` yields; this list
is exactly the payload handed (as `UpdateConditionFn`s) to
`v1helpers.UpdateStatus`, the external status writer. -/
def aggregateConditions (foundConditions : List OperatorCondition) : List OperatorCondition :=
  knownConditionNamesList.map (updatedConditionFor foundConditions)

/- ### The lookups of `sync` and their error handling. -/

/-- The errors a Kubernetes lister/client call can produce: an apimachinery
`StatusError` with reason NotFound for a missing object, or any other
failure; `msg` is the error's `Error()` text. -/
inductive KubeError where
  | notFound (msg : String)
  | other (msg : String)
deriving DecidableEq, Repr

def KubeError.message : KubeError → String
  | .notFound m => m
  | .other m => m

/-- Model of Go `os.IsNotExist` applied to the errors a Kubernetes lister
produces.  `os.IsNotExist` recognises only the `fs.ErrNotExist` family
(the sentinel itself, or a `*PathError`/`*LinkError`/`*SyscallError`
wrapping ENOENT/ENOTDIR); an apimachinery `StatusError` with reason
NotFound — which is what a lister's `Get` returns for a missing object —
is none of those, so the test is false for every error a lister returns. -/
def osIsNotExist : KubeError → Bool := fun _ => false

/-- Model of apimachinery `errors.IsNotFound`, the check `route.go` uses. -/
def errorsIsNotFound : KubeError → Bool
  | .notFound _ => true
  | .other _ => false

/- Shared object models (`routev1.Route`, `configv1.Authentication`, core
types), restricted to the fields this code reads. -/

inductive IntOrString where
  | int (n : Int)
  | str (s : String)
deriving DecidableEq, Repr

/-- Model of `intstr.IntOrString.IntValue`: the int value, or `strconv.Atoi` of the
string where a failed parse yields 0. -/
def IntOrString.intValue : IntOrString → Int
  | .int n => n
  | .str s => (s.toInt?).getD 0

structure RouteTargetReference where
  kind : String
  name : String
deriving DecidableEq, Repr

structure RoutePort where
  targetPort : IntOrString
deriving DecidableEq, Repr

structure TLSConfig where
  termination : String
  insecureEdgeTerminationPolicy : String
deriving DecidableEq, Repr

/-- Model of `routev1.RouteSpec`; `port` and `tls` are nil-able pointers in the Go
API, and `toRef` stands for the `To` target reference (`to` is a reserved
word here). -/
structure RouteSpec where
  host : String
  subdomain : String
  toRef : RouteTargetReference
  port : Option RoutePort
  tls : Option TLSConfig
deriving DecidableEq, Repr

structure RouteIngressCondition where
  type : String
  status : String
deriving DecidableEq, Repr

structure RouteIngress where
  host : String
  conditions : List RouteIngressCondition
deriving DecidableEq, Repr

structure RouteStatus where
  ingress : List RouteIngress
deriving DecidableEq, Repr

structure Route where
  name : String
  uid : String
  spec : RouteSpec
  status : RouteStatus
deriving DecidableEq, Repr

structure OAuthMetadataRef where
  name : String
deriving DecidableEq, Repr

structure AuthenticationSpec where
  type : String
  oauthMetadata : OAuthMetadataRef
deriving DecidableEq, Repr

structure Authentication where
  spec : AuthenticationSpec
deriving DecidableEq, Repr

/-- Model of `getRoute` (lines 140-158): the lister lookup for the
`openshift-authentication/oauth-openshift` route.  The comment in the
source says absence should mean "do nothing and wait", and the absence test
used is `os.IsNotExist`. -/
def getRoute (lookup : Except KubeError Route) : Option Route × List OperatorCondition :=
  match lookup with
  | .error err =>
    if osIsNotExist err then (none, [])
    else
      (none, [{ type := "WellKnownRouteDegraded", status := "True", reason := "GetFailed",
                message := "Unable to get oauth-openshift route: " ++ err.message }])
  | .ok route => (some route, [])

/-- Model of `getAuthConfig` (lines 160-176): the lister lookup for the `cluster`
authentication config, with the same `os.IsNotExist` absence test. -/
def getAuthConfig (lookup : Except KubeError Authentication) :
    Option Authentication × List OperatorCondition :=
  match lookup with
  | .error err =>
    if osIsNotExist err then (none, [])
    else
      (none, [{ type := "WellKnownAuthConfigDegraded", status := "True", reason := "GetFailed",
                message := "Unable to get cluster authentication config: " ++ err.message }])
  | .ok operatorConfig => (some operatorConfig, [])

/-- The findings `sync` appends for the readiness-check result (lines
95-117): nothing when ready; otherwise take the message — or, when it is
empty and an error is present, the error text — and only a non-empty
message produces the WellKnownProgressing/WellKnownAvailable pair (the
"avaiable"/"THe" typos are the source's). -/
def wellKnownFindings (ready : Bool) (conditionMessage : String) (err : Option String) :
    List OperatorCondition :=
  if ready then []
  else
    let conditionMessage :=
      if conditionMessage.length = 0 ∧ err.isSome then err.getD "" else conditionMessage
    if conditionMessage.length > 0 then
      [{ type := "WellKnownProgressing", status := "True", reason := "NotReady",
         message := "The well-known endpoint is not yet avaiable: " ++ conditionMessage },
       { type := "WellKnownAvailable", status := "False", reason := "NotReady",
         message := "THe well-known endpoint is not yet available: " ++ conditionMessage }]
    else []

/-- One `sync` cycle (lines 86-137) up to the condition payload handed to
`v1helpers.UpdateStatus`: the findings of the two lookups, the readiness
findings when both objects exist (`check` is the result
`isWellknownEndpointsReady` would return), then the aggregation step. -/
def syncUpdatedConditions (authLookup : Except KubeError Authentication)
    (routeLookup : Except KubeError Route) (check : Bool × String × Option String) :
    List OperatorCondition :=
  let (authConfig, configConditions) := getAuthConfig authLookup
  let (route, routeConditions) := getRoute routeLookup
  let foundConditions := configConditions ++ routeConditions ++
    (if authConfig.isSome ∧ route.isSome then
      wellKnownFindings check.1 check.2.1 check.2.2
    else [])
  aggregateConditions foundConditions

/- ### The backend address resolver (`getAPIServerIPs` and helpers). -/

structure ServicePort where
  protocol : String
  port : Int
  targetPort : IntOrString
deriving DecidableEq, Repr

structure Service where
  ports : List ServicePort
deriving DecidableEq, Repr

structure EndpointPort where
  protocol : String
  port : Int
deriving DecidableEq, Repr

structure EndpointAddress where
  ip : String
deriving DecidableEq, Repr

structure EndpointSubset where
  addresses : List EndpointAddress
  notReadyAddresses : List EndpointAddress
  ports : List EndpointPort
deriving DecidableEq, Repr

structure Endpoints where
  subsets : List EndpointSubset
deriving DecidableEq, Repr

/-- Model of `getKASTargetPortFromService` (lines 289-296): the target port of the
first service port that has a non-zero integer target port, protocol TCP
and the configured KAS service port; `none` models `(0, false)`. -/
def getKASTargetPortFromService (kasServicePort : Int) : List ServicePort → Option Int
  | [] => none
  | port :: rest =>
    if port.targetPort.intValue ≠ 0 ∧ port.protocol = "TCP" ∧ port.port = kasServicePort then
      some port.targetPort.intValue
    else getKASTargetPortFromService kasServicePort rest

/-- Model of `subsetHasKASTargetPort` (lines 298-305). -/
def subsetHasKASTargetPort (subset : EndpointSubset) (targetPort : Int) : Bool :=
  subset.ports.any fun port => port.protocol == "TCP" && port.port == targetPort

/-- Model of `net.JoinHostPort`: wrap the host in brackets when it contains a colon
(an IPv6 literal), then join host and port with `:`. -/
def joinHostPort (host port : String) : String :=
  if host.data.contains ':' then "[" ++ host ++ "]:" ++ port else host ++ ":" ++ port

/-- The failures of `getAPIServerIPs`; each carries a formatted message with
a dump of the offending object in the source, represented here by the tag. -/
inductive ResolveError where
  | serviceGetFailed
  | noTargetPort
  | endpointsGetFailed
  | notReady
  | portNotFound
deriving DecidableEq, Repr

/-- The subset scan of `getAPIServerIPs` (lines 323-339): skip subsets whose
port list lacks the target port; for the first one that has it, fail when
any not-ready address exists or no ready address exists, otherwise join
every ready address with the target port, in address order. -/
def resolveSubsets (targetPort : Int) : List EndpointSubset → Except ResolveError (List String)
  | [] => .error .portNotFound
  | subset :: rest =>
    if ¬ subsetHasKASTargetPort subset targetPort then resolveSubsets targetPort rest
    else if subset.notReadyAddresses.length ≠ 0 ∨ subset.addresses.length = 0 then
      .error .notReady
    else
      .ok (subset.addresses.map fun address => joinHostPort address.ip (toString targetPort))

/-- Model of `getAPIServerIPs` (lines 307-340): resolve the KAS service's target
port, then scan the endpoint subsets. -/
def getAPIServerIPs (kasServicePort : Int) (serviceLookup : Except KubeError Service)
    (endpointsLookup : Except KubeError Endpoints) : Except ResolveError (List String) :=
  match serviceLookup with
  | .error _ => .error .serviceGetFailed
  | .ok kasService =>
    match getKASTargetPortFromService kasServicePort kasService.ports with
    | none => .error .noTargetPort
    | some targetPort =>
      match endpointsLookup with
      | .error _ => .error .endpointsGetFailed
      | .ok kasEndpoint => resolveSubsets targetPort kasEndpoint.subsets

/- ### The probe loop of `isWellknownEndpointsReady` and the single probe. -/

/-- The `(bool, string, error)` triple the probe functions return. -/
structure ProbeResult where
  ready : Bool
  msg : String
  err : Option String
deriving DecidableEq, Repr

/-- The per-address verification loop of `isWellknownEndpointsReady` (lines
201-208), instrumented with the list of addresses actually probed: return
the first result whose probe errors or reports not ready, otherwise finish
ready after probing every address.  `probe` stands for
`checkWellknownEndpointReady` at the fixed transport and route. -/
def probeLoop (probe : String → ProbeResult) : List String → ProbeResult × List String
  | [] => (⟨true, "", none⟩, [])
  | ip :: rest =>
    let r := probe ip
    if r.err ≠ none ∨ r.ready = false then (r, [ip])
    else
      let (res, probed) := probeLoop probe rest
      (res, ip :: probed)

/-- A probe attempt that neither errored nor reported not-ready. -/
def probeOk (r : ProbeResult) : Prop := r.err = none ∧ r.ready = true

instance (r : ProbeResult) : Decidable (probeOk r) := by
  unfold probeOk
  infer_instance

/-- Model of `http.Response` restricted to what the probe reads; `status` is the
HTTP status line text and the body read is folded into the response (a
read failure is not modelled, no claim touches it). -/
structure HttpResponse where
  statusCode : Int
  status : String
  body : String
deriving DecidableEq, Repr

/-- Model of `checkWellknownEndpointReady` can also panic (in `getMetadataStruct`)
instead of returning a triple. -/
inductive CheckOutcome where
  | panicked
  | result (r : ProbeResult)
deriving DecidableEq, Repr

def wellKnownURL (apiIP : String) : String :=
  "https://" ++ apiIP ++ "/.well-known/oauth-authorization-server"

/-- Model of `checkWellknownEndpointReady` (lines 211-244) for one address.
`roundTrip` is the outcome of `rt.RoundTrip(req)` (building the request for
these URLs cannot fail).  A transport failure propagates as an error; a
non-200 status is not-ready with the status line in the message and no
error; a 200 body that fails to unmarshal propagates as an error (the json
error's own text is not modelled); a decoded body that is not deep-equal to
the expected document is not-ready with a diagnostic message and no error. -/
def checkWellknownEndpointReady (apiIP : String) (roundTrip : Except String HttpResponse)
    (routeHost : String) : CheckOutcome :=
  match roundTrip with
  | .error e =>
    .result ⟨false, "", some ("failed to GET well-known " ++ wellKnownURL apiIP ++ ": " ++ e)⟩
  | .ok resp =>
    if resp.statusCode ≠ 200 then
      .result ⟨false, "got '" ++ resp.status ++ "' status while trying to GET the OAuth well-known "
        ++ wellKnownURL apiIP ++ " endpoint data", none⟩
    else
      match parseDoc resp.body with
      | none =>
        .result ⟨false, "", some ("failed to marshall well-known " ++ wellKnownURL apiIP ++ " JSON")⟩
      | some receivedValues =>
        match getMetadataStruct routeHost with
        | none => .panicked
        | some expectedMetadata =>
          if ¬ deepEqualObj expectedMetadata receivedValues then
            .result ⟨false, "the value returned by the well-known " ++ wellKnownURL apiIP ++
              " endpoint does not match expectations", none⟩
          else .result ⟨true, "", none⟩

/-- Model of `checkWellknownEndpointReady` never reports ready together with an
error: every `(true, _, _)` return carries a nil error.  This is the fact
the ready-only-after-all-probes part of the probe-loop claim rests on. -/
theorem checkWellknown_no_ready_error (apiIP : String) (roundTrip : Except String HttpResponse)
    (routeHost : String) (r : ProbeResult)
    (h : checkWellknownEndpointReady apiIP roundTrip routeHost = .result r)
    (herr : r.err ≠ none) : r.ready = false := by
  rw [checkWellknownEndpointReady.eq_def] at h
  split at h
  · obtain rfl : _ = r := CheckOutcome.result.inj h
    rfl
  · split at h
    · obtain rfl : _ = r := CheckOutcome.result.inj h
      rfl
    · split at h
      · obtain rfl : _ = r := CheckOutcome.result.inj h
        rfl
      · split at h
        · exact absurd h (by simp)
        · split at h
          · obtain rfl : _ = r := CheckOutcome.result.inj h
            rfl
          · obtain rfl : _ = r := CheckOutcome.result.inj h
            exact absurd rfl herr

/-- The oracle results `isWellknownEndpointsReady` consumes: the service
account CA file read, the transport construction, `getAPIServerIPs`, and
the per-address probe (`checkWellknownEndpointReady` at the built
transport and the route). -/
structure ReadinessOracles where
  caRead : Except String Unit
  transportBuild : Except String Unit
  apiServerIPs : Except ResolveError (List String)
  probe : String → ProbeResult

/-- Model of `isWellknownEndpointsReady` (lines 178-209): trivially ready when a
custom OAuth metadata source is configured or the authentication type is
not IntegratedOAuth; otherwise read the CA, build the transport, resolve
the backend addresses (each failure propagating as an error; the wrapped
collaborator error texts are represented by the oracle's strings) and run
the fail-fast probe loop. -/
def isWellknownEndpointsReady (authConfig : Authentication) (oracles : ReadinessOracles) :
    ProbeResult :=
  if authConfig.spec.oauthMetadata.name.length ≠ 0 ∨
      authConfig.spec.type ≠ "IntegratedOAuth" then ⟨true, "", none⟩
  else
    match oracles.caRead with
    | .error e => ⟨false, "", some ("failed to read SA ca.crt: " ++ e)⟩
    | .ok _ =>
      match oracles.transportBuild with
      | .error e => ⟨false, "", some ("failed to build transport for SA ca.crt: " ++ e)⟩
      | .ok _ =>
        match oracles.apiServerIPs with
        | .error _ => ⟨false, "", some "failed to get API server IPs"⟩
        | .ok ips => (probeLoop oracles.probe ips).1

/- ### `pkg/operator2/route.go`: the route reconciler. -/

/-- Constants of the operator package, defined in a source file outside this
excerpt; `getRoute` in the readiness controller pins the route name, and
the container port's value is irrelevant to every claim below. -/
def targetName : String := "oauth-openshift"

def containerPort : Int := 6443

structure IngressSpec where
  domain : String
deriving DecidableEq, Repr

structure Ingress where
  spec : IngressSpec
deriving DecidableEq, Repr

def ingressToHost (ingress : Ingress) : String := targetName ++ "." ++ ingress.spec.domain

/-- Model of `defaultRoute` (lines 95-114); `defaultMeta` supplies the fixed name,
and a created object carries no client-side UID. -/
def defaultRoute (ingress : Ingress) : Route :=
  { name := targetName
    uid := ""
    spec := { host := ingressToHost ingress
              subdomain := ""
              toRef := { kind := "Service", name := targetName }
              port := some { targetPort := .int containerPort }
              tls := some { termination := "passthrough"
                            insecureEdgeTerminationPolicy := "Redirect" } }
    status := { ingress := [] } }

/-- Model of `isIngressAdmitted` (lines 169-176): some condition is
`Admitted=True`. -/
def isIngressAdmitted (ingress : RouteIngress) : Bool :=
  ingress.conditions.any fun condition => condition.type == "Admitted" && condition.status == "True"

/-- The status scan of `getCanonicalHost` (lines 155-167). -/
def getCanonicalHostLoop (host : String) : List RouteIngress → String
  | [] => ""
  | ingress :: rest =>
    if ingress.host = host ∧ isIngressAdmitted ingress then host
    else getCanonicalHostLoop host rest

def getCanonicalHost (route : Route) (ingressConfig : Ingress) : String :=
  getCanonicalHostLoop (ingressToHost ingressConfig) route.status.ingress

/-- The mismatches `isValidRoute` can report, in the order the source
checks them; each carries a formatted message in the source. -/
inductive SpecErr where
  | wrongService
  | wrongPort
  | tlsMissing
  | wrongTermination
  | wrongInsecurePolicy
deriving DecidableEq, Repr

inductive ValidationOutcome where
  | panicked
  | valid
  | invalid (e : SpecErr)
deriving DecidableEq, Repr

/-- Model of `isValidRoute` (lines 61-93).  The expected values are those of
`defaultRoute` (see `isValidRoute_expected` below).  The Go code reads
`route.Spec.Port.TargetPort` before any nil test: an observed route without
a port panics (`.panicked`) before the port comparison; `route.Spec.TLS`
however is nil-tested before use. -/
def isValidRoute (route : Route) (ingress : Ingress) : ValidationOutcome :=
  let expectedRoute := defaultRoute ingress
  let expName := expectedRoute.spec.toRef.name
  if route.spec.toRef.name ≠ expName then .invalid .wrongService
  else
    match route.spec.port with
    | none => .panicked
    | some port =>
      if port.targetPort.intValue ≠ containerPort then .invalid .wrongPort
      else
        match route.spec.tls with
        | none => .invalid .tlsMissing
        | some tls =>
          if tls.termination ≠ "passthrough" then .invalid .wrongTermination
          else if tls.insecureEdgeTerminationPolicy ≠ "Redirect" then
            .invalid .wrongInsecurePolicy
          else .valid

/-- The expected-side values `isValidRoute` compares against are exactly
the fields of `defaultRoute`. -/
theorem isValidRoute_expected (ingress : Ingress) :
    (defaultRoute ingress).spec.toRef.name = targetName ∧
    (defaultRoute ingress).spec.port = some { targetPort := .int containerPort } ∧
    (defaultRoute ingress).spec.tls =
      some { termination := "passthrough", insecureEdgeTerminationPolicy := "Redirect" } :=
  ⟨rfl, rfl, rfl⟩

structure Secret where
  namespaceName : String
  name : String
  data : List (String × String)
deriving DecidableEq, Repr

/-- The mutating API calls `handleRoute` can issue against the route
collection. -/
inductive RouteAction where
  | create (r : Route)
  | delete (name : String) (uidPrecondition : String)
deriving DecidableEq, Repr

inductive HandleErr where
  | getOrCreateFailed (e : KubeError)
  | notAdmitted
  | invalidSpec (e : SpecErr)
  | secretGetFailed (e : KubeError)
  | emptySecret
deriving DecidableEq, Repr

inductive HandleResult where
  | panicked
  | ok (route : Route) (secret : Secret)
  | fail (e : HandleErr)
deriving DecidableEq, Repr

/-- The collaborator call results `handleRoute` consumes: the route `Get`,
the route `Create` (consulted only when the Get reports NotFound) and the
router-certs secret `Get`.  The result of the `Delete` call is only logged
by the source, so it is not an input. -/
structure HandleRouteClients where
  routeGet : Except KubeError Route
  routeCreate : Except KubeError Route
  secretGet : Except KubeError Secret

/-- Model of `handleRoute` after the route has been obtained (lines 26-58): host
admission check, local host patch on a deep copy, validation with
delete-on-mismatch, then the router secret. -/
def handleRouteObtained (clients : HandleRouteClients) (ingress : Ingress) (route : Route)
    (acts : List RouteAction) : HandleResult × List RouteAction :=
  let host := getCanonicalHost route ingress
  if host.length = 0 then (.fail .notAdmitted, acts)
  else
    match isValidRoute { route with spec := { route.spec with host := host } } ingress with
    | .panicked => (.panicked, acts)
    | .invalid e => (.fail (.invalidSpec e), acts ++ [.delete route.name route.uid])
    | .valid =>
      match clients.secretGet with
      | .error e => (.fail (.secretGetFailed e), acts)
      | .ok routerSecret =>
        if routerSecret.data.length = 0 then (.fail .emptySecret, acts)
        else (.ok { route with spec := { route.spec with host := host } } routerSecret, acts)

/-- Model of `handleRoute` (lines 17-59): get the route, create it from
`defaultRoute` when absent (`errors.IsNotFound`), then validate and fetch
the secret.  The second component lists the mutating route-API calls
issued. -/
def handleRoute (clients : HandleRouteClients) (ingress : Ingress) :
    HandleResult × List RouteAction :=
  match clients.routeGet with
  | .error e =>
    if errorsIsNotFound e then
      match clients.routeCreate with
      | .error e' => (.fail (.getOrCreateFailed e'), [.create (defaultRoute ingress)])
      | .ok route => handleRouteObtained clients ingress route [.create (defaultRoute ingress)]
    else (.fail (.getOrCreateFailed e), [])
  | .ok route => handleRouteObtained clients ingress route []

/- ### Aggregation lemmas and the aggregation claims. -/

theorem knownConditionNamesList_eval :
    knownConditionNamesList =
      ["WellKnownAuthConfigDegraded", "WellKnownAvailable",
       "WellKnownProgressing", "WellKnownRouteDegraded"] := by
  decide

theorem updatedConditionFor_type (f : List OperatorCondition) (t : String) :
    (updatedConditionFor f t).type = t := by
  unfold updatedConditionFor
  cases hfind : findOperatorCondition f t with
  | none => rfl
  | some c =>
    unfold findOperatorCondition at hfind
    have hp := List.find?_some hfind
    simp only []
    exact of_decide_eq_true hp

/-- Claim C1: whatever findings one sync cycle produced, the aggregated
condition list handed to the status writer has exactly one condition per
known type — the four well-known types in sorted order — and no condition
of any other type. -/
theorem aggregate_total_coverage (foundConditions : List OperatorCondition) :
    (aggregateConditions foundConditions).map OperatorCondition.type =
      ["WellKnownAuthConfigDegraded", "WellKnownAvailable",
       "WellKnownProgressing", "WellKnownRouteDegraded"] := by
  rw [aggregateConditions, knownConditionNamesList_eval]
  simp [updatedConditionFor_type]

theorem findOperatorCondition_nil (t : String) : findOperatorCondition [] t = none := rfl

theorem findOperatorCondition_cons (c : OperatorCondition) (rest : List OperatorCondition)
    (t : String) : findOperatorCondition (c :: rest) t =
      if c.type = t then some c else findOperatorCondition rest t := by
  by_cases h : c.type = t
  · simp [findOperatorCondition, List.find?_cons, h]
  · simp [findOperatorCondition, List.find?_cons, h]

/-- Claim C2: the aggregation step is idempotent — aggregating the output
of the aggregation yields the very same condition list. -/
theorem aggregate_idempotent (foundConditions : List OperatorCondition) :
    aggregateConditions (aggregateConditions foundConditions) =
      aggregateConditions foundConditions := by
  have hexp : aggregateConditions foundConditions =
      [updatedConditionFor foundConditions "WellKnownAuthConfigDegraded",
       updatedConditionFor foundConditions "WellKnownAvailable",
       updatedConditionFor foundConditions "WellKnownProgressing",
       updatedConditionFor foundConditions "WellKnownRouteDegraded"] := by
    rw [aggregateConditions, knownConditionNamesList_eval]
    rfl
  rw [hexp, aggregateConditions, knownConditionNamesList_eval]
  simp only [List.map_cons, List.map_nil]
  generalize hu1 : updatedConditionFor foundConditions "WellKnownAuthConfigDegraded" = u1
  generalize hu2 : updatedConditionFor foundConditions "WellKnownAvailable" = u2
  generalize hu3 : updatedConditionFor foundConditions "WellKnownProgressing" = u3
  generalize hu4 : updatedConditionFor foundConditions "WellKnownRouteDegraded" = u4
  have n1 : u1.type = "WellKnownAuthConfigDegraded" := hu1 ▸ updatedConditionFor_type ..
  have n2 : u2.type = "WellKnownAvailable" := hu2 ▸ updatedConditionFor_type ..
  have n3 : u3.type = "WellKnownProgressing" := hu3 ▸ updatedConditionFor_type ..
  have n4 : u4.type = "WellKnownRouteDegraded" := hu4 ▸ updatedConditionFor_type ..
  simp [updatedConditionFor, findOperatorCondition_cons, findOperatorCondition_nil,
    n1, n2, n3, n4]

theorem aggregateConditions_nil :
    aggregateConditions [] =
      [{ type := "WellKnownAuthConfigDegraded", status := "False" },
       { type := "WellKnownAvailable", status := "True" },
       { type := "WellKnownProgressing", status := "False" },
       { type := "WellKnownRouteDegraded", status := "False" }] := by
  decide

/-- Claim C8: a known type with no finding this cycle defaults to status
False — True for a type whose name ends in "Available" — and on a cycle
with no findings at all the final list is exactly AuthConfigDegraded=False,
Available=True, Progressing=False, RouteDegraded=False. -/
theorem aggregate_defaulting (foundConditions : List OperatorCondition) (t : String)
    (ht : t ∈ knownConditionNamesList) (hnone : findOperatorCondition foundConditions t = none) :
    updatedConditionFor foundConditions t =
      { type := t, status := if hasSuffix t "Available" then "True" else "False",
        reason := "", message := "" } ∧
    ({ type := t, status := if hasSuffix t "Available" then "True" else "False",
       reason := "", message := "" } : OperatorCondition) ∈
        aggregateConditions foundConditions ∧
    aggregateConditions [] =
      [{ type := "WellKnownAuthConfigDegraded", status := "False" },
       { type := "WellKnownAvailable", status := "True" },
       { type := "WellKnownProgressing", status := "False" },
       { type := "WellKnownRouteDegraded", status := "False" }] := by
  have hdef : updatedConditionFor foundConditions t =
      { type := t, status := if hasSuffix t "Available" then "True" else "False",
        reason := "", message := "" } := by
    simp [updatedConditionFor, hnone]
  exact ⟨hdef, hdef ▸ List.mem_map_of_mem (updatedConditionFor foundConditions) ht,
    aggregateConditions_nil⟩

/-- Witness for C8 at a concrete input: the findings list carries only a
Progressing condition, so WellKnownAvailable is absent and defaults to
True. -/
theorem aggregate_defaulting_witness :
    updatedConditionFor [{ type := "WellKnownProgressing", status := "True" }]
        "WellKnownAvailable" =
      { type := "WellKnownAvailable", status := "True", reason := "", message := "" } ∧
    ({ type := "WellKnownAvailable", status := "True",
       reason := "", message := "" } : OperatorCondition) ∈
        aggregateConditions [{ type := "WellKnownProgressing", status := "True" }] ∧
    aggregateConditions [] =
      [{ type := "WellKnownAuthConfigDegraded", status := "False" },
       { type := "WellKnownAvailable", status := "True" },
       { type := "WellKnownProgressing", status := "False" },
       { type := "WellKnownRouteDegraded", status := "False" }] := by
  have h := aggregate_defaulting [{ type := "WellKnownProgressing", status := "True" }]
    "WellKnownAvailable" (by decide) (by decide)
  simpa using h

/-- Claim C5 (refuting evaluation): when a lister reports the object absent
— a Kubernetes NotFound error — `getRoute`/`getAuthConfig` do return nil
objects, but each also emits its Degraded condition, because the absence
test `os.IsNotExist` is false for a Kubernetes API NotFound error. -/
theorem lookup_absent_emits_degraded (m : String) :
    getRoute (.error (.notFound m)) =
      (none, [{ type := "WellKnownRouteDegraded", status := "True", reason := "GetFailed",
                message := "Unable to get oauth-openshift route: " ++ m }]) ∧
    getAuthConfig (.error (.notFound m)) =
      (none, [{ type := "WellKnownAuthConfigDegraded", status := "True", reason := "GetFailed",
                message := "Unable to get cluster authentication config: " ++ m }]) :=
  ⟨rfl, rfl⟩

/-- Claim C10: a not-ready check result with an empty message and empty
error text produces no WellKnownProgressing/WellKnownAvailable finding, so
after defaulting the cycle reports Available=True and Progressing=False
despite the endpoint not being ready. -/
theorem sync_empty_message_not_ready (auth : Authentication) (route : Route)
    (err : Option String) (herr : err.getD "" = "") :
    wellKnownFindings false "" err = [] ∧
    syncUpdatedConditions (.ok auth) (.ok route) (false, "", err) =
      [{ type := "WellKnownAuthConfigDegraded", status := "False" },
       { type := "WellKnownAvailable", status := "True" },
       { type := "WellKnownProgressing", status := "False" },
       { type := "WellKnownRouteDegraded", status := "False" }] := by
  have hfind : wellKnownFindings false "" err = [] := by
    cases err with
    | none => simp [wellKnownFindings]
    | some e =>
      have he : e = "" := by simpa using herr
      subst he
      simp [wellKnownFindings]
  refine ⟨hfind, ?_⟩
  simp only [syncUpdatedConditions, getAuthConfig, getRoute]
  simp [hfind, aggregateConditions_nil]

/-- Witness for C10 at a concrete input (no error object at all). -/
theorem sync_empty_message_not_ready_witness :
    wellKnownFindings false "" none = [] ∧
    syncUpdatedConditions
      (.ok { spec := { type := "IntegratedOAuth", oauthMetadata := { name := "" } } })
      (.ok { name := "oauth-openshift", uid := "u1",
             spec := { host := "", subdomain := "",
                       toRef := { kind := "Service", name := "oauth-openshift" },
                       port := some { targetPort := .int 6443 },
                       tls := some { termination := "passthrough",
                                     insecureEdgeTerminationPolicy := "Redirect" } },
             status := { ingress := [] } })
      (false, "", none) =
      [{ type := "WellKnownAuthConfigDegraded", status := "False" },
       { type := "WellKnownAvailable", status := "True" },
       { type := "WellKnownProgressing", status := "False" },
       { type := "WellKnownRouteDegraded", status := "False" }] :=
  sync_empty_message_not_ready
    { spec := { type := "IntegratedOAuth", oauthMetadata := { name := "" } } }
    { name := "oauth-openshift", uid := "u1",
      spec := { host := "", subdomain := "",
                toRef := { kind := "Service", name := "oauth-openshift" },
                port := some { targetPort := .int 6443 },
                tls := some { termination := "passthrough",
                              insecureEdgeTerminationPolicy := "Redirect" } },
      status := { ingress := [] } }
    none rfl

/- ### Claims about the address resolver and the probe loop. -/

/-- Claim C3: the resolver acts on exactly the first subset whose port list
carries the target TCP port — `List.find?` of the match predicate: none ⇒
a port-not-found error; for the first match, any not-ready address or zero
ready addresses ⇒ a not-ready error and no addresses, otherwise exactly the
ready addresses joined with the target port, in address order. -/
theorem resolveSubsets_first_match (targetPort : Int) (subsets : List EndpointSubset) :
    (subsets.find? (fun s => subsetHasKASTargetPort s targetPort) = none →
      resolveSubsets targetPort subsets = .error .portNotFound) ∧
    (∀ s, subsets.find? (fun s => subsetHasKASTargetPort s targetPort) = some s →
      ((s.notReadyAddresses.length ≠ 0 ∨ s.addresses.length = 0) →
        resolveSubsets targetPort subsets = .error .notReady) ∧
      (s.notReadyAddresses.length = 0 → s.addresses.length ≠ 0 →
        resolveSubsets targetPort subsets =
          .ok (s.addresses.map fun address => joinHostPort address.ip (toString targetPort)))) := by
  induction subsets with
  | nil =>
    refine ⟨fun _ => rfl, fun s hs => ?_⟩
    simp at hs
  | cons subset rest ih =>
    by_cases hmatch : subsetHasKASTargetPort subset targetPort
    · have hfc : List.find? (fun s => subsetHasKASTargetPort s targetPort) (subset :: rest) =
          some subset :=
        List.find?_cons_of_pos _ (by simpa using hmatch)
      refine ⟨fun hnone => ?_, fun s hs => ?_⟩
      · rw [hfc] at hnone
        exact absurd hnone (by simp)
      · rw [hfc] at hs
        obtain rfl : subset = s := by simpa using hs
        constructor
        · intro hbad
          rw [resolveSubsets, if_neg (by simpa using hmatch), if_pos hbad]
        · intro h1 h2
          rw [resolveSubsets, if_neg (by simpa using hmatch), if_neg (by simp [h1, h2])]
    · have hfc : List.find? (fun s => subsetHasKASTargetPort s targetPort) (subset :: rest) =
          List.find? (fun s => subsetHasKASTargetPort s targetPort) rest :=
        List.find?_cons_of_neg _ (by simpa using hmatch)
      have hstep : resolveSubsets targetPort (subset :: rest) = resolveSubsets targetPort rest := by
        rw [resolveSubsets, if_pos (by simpa using hmatch)]
      refine ⟨fun hnone => ?_, fun s hs => ?_⟩
      · rw [hfc] at hnone
        rw [hstep]
        exact ih.1 hnone
      · rw [hfc] at hs
        have := ih.2 s hs
        exact ⟨fun hbad => hstep ▸ this.1 hbad, fun h1 h2 => hstep ▸ this.2 h1 h2⟩

/-- Witness for C3 at concrete inputs: the first subset lacks the TCP
target port and is skipped; the second, matching subset has two ready
addresses and resolves to the joined socket addresses (first conjunct); a
matching subset with a not-ready address fails closed (second conjunct). -/
theorem resolveSubsets_first_match_witness :
    resolveSubsets 6443
      [{ addresses := [], notReadyAddresses := [{ ip := "10.0.0.9" }],
         ports := [{ protocol := "TCP", port := 9999 }] },
       { addresses := [{ ip := "10.0.0.1" }, { ip := "10.0.0.2" }], notReadyAddresses := [],
         ports := [{ protocol := "UDP", port := 6443 }, { protocol := "TCP", port := 6443 }] }] =
      .ok (([{ ip := "10.0.0.1" }, { ip := "10.0.0.2" }] : List EndpointAddress).map
        fun address => joinHostPort address.ip (toString (6443 : Int))) ∧
    resolveSubsets 6443
      [{ addresses := [{ ip := "10.0.0.1" }, { ip := "10.0.0.2" }],
         notReadyAddresses := [{ ip := "10.0.0.3" }],
         ports := [{ protocol := "TCP", port := 6443 }] }] =
      .error .notReady := by
  constructor
  · exact ((resolveSubsets_first_match 6443
      [{ addresses := [], notReadyAddresses := [{ ip := "10.0.0.9" }],
         ports := [{ protocol := "TCP", port := 9999 }] },
       { addresses := [{ ip := "10.0.0.1" }, { ip := "10.0.0.2" }], notReadyAddresses := [],
         ports := [{ protocol := "UDP", port := 6443 }, { protocol := "TCP", port := 6443 }] }]).2
      { addresses := [{ ip := "10.0.0.1" }, { ip := "10.0.0.2" }], notReadyAddresses := [],
        ports := [{ protocol := "UDP", port := 6443 }, { protocol := "TCP", port := 6443 }] }
      (by decide)).2 (by decide) (by decide)
  · exact ((resolveSubsets_first_match 6443
      [{ addresses := [{ ip := "10.0.0.1" }, { ip := "10.0.0.2" }],
         notReadyAddresses := [{ ip := "10.0.0.3" }],
         ports := [{ protocol := "TCP", port := 6443 }] }]).2
      { addresses := [{ ip := "10.0.0.1" }, { ip := "10.0.0.2" }],
        notReadyAddresses := [{ ip := "10.0.0.3" }],
        ports := [{ protocol := "TCP", port := 6443 }] }
      (by decide)).1 (by decide)

theorem not_probeOk_iff (r : ProbeResult) :
    ¬ probeOk r ↔ (r.err ≠ none ∨ r.ready = false) := by
  unfold probeOk
  constructor
  · intro h
    by_cases he : r.err = none
    · right
      cases hr : r.ready with
      | false => rfl
      | true => exact absurd ⟨he, hr⟩ h
    · exact Or.inl he
  · rintro (he | hr) ⟨h1, h2⟩
    · exact he h1
    · rw [hr] at h2
      exact Bool.false_ne_true h2

/-- Claim C4: the probe loop is fail-fast — when the probes of all
addresses before index `i` succeed and the probe of address `i` errors or
reports not-ready, the loop returns exactly that address's result having
probed only the first `i+1` addresses; and (for a probe that never reports
ready together with an error, which `checkWellknownEndpointReady` never
does) the loop reports ready only after probing every address
successfully. -/
theorem probeLoop_fail_fast (probe : String → ProbeResult) (ips : List String) :
    (∀ i, i < ips.length → (∀ j, j < i → probeOk (probe (ips.getD j ""))) →
      ¬ probeOk (probe (ips.getD i "")) →
      probeLoop probe ips = (probe (ips.getD i ""), ips.take (i + 1))) ∧
    ((∀ a ∈ ips, (probe a).err ≠ none → (probe a).ready = false) →
      (probeLoop probe ips).1.ready = true →
      (probeLoop probe ips).2 = ips ∧ ∀ a ∈ ips, probeOk (probe a)) := by
  induction ips with
  | nil =>
    refine ⟨fun i hi => by simp at hi, fun _ _ => ⟨rfl, by simp⟩⟩
  | cons ip rest ih =>
    constructor
    · intro i hi hbefore hfail
      cases i with
      | zero =>
        simp only [List.getD_cons_zero] at hfail ⊢
        rw [probeLoop, if_pos ((not_probeOk_iff _).mp hfail)]
        simp
      | succ i' =>
        have h0 : probeOk (probe ip) := by
          have := hbefore 0 (Nat.succ_pos _)
          simpa using this
        have hcond : ¬((probe ip).err ≠ none ∨ (probe ip).ready = false) :=
          fun hc => (not_probeOk_iff _).mpr hc h0
        have hrec := ih.1 i' (by simpa using hi)
          (fun j hj => by simpa using hbefore (j + 1) (by omega))
          (by simpa using hfail)
        rw [probeLoop, if_neg hcond, hrec]
        simp
    · intro hprobe hready
      by_cases hcond : ((probe ip).err ≠ none ∨ (probe ip).ready = false)
      · exfalso
        rw [probeLoop, if_pos hcond] at hready
        cases hcond with
        | inl he =>
          have hf := hprobe ip (by simp) he
          rw [hf] at hready
          exact Bool.false_ne_true hready
        | inr hr =>
          rw [hr] at hready
          exact Bool.false_ne_true hready
      · obtain ⟨res, probed, hpl⟩ : ∃ res probed, probeLoop probe rest = (res, probed) :=
          ⟨_, _, rfl⟩
        rw [probeLoop, if_neg hcond, hpl] at hready ⊢
        have hok : probeOk (probe ip) := by
          rw [not_or] at hcond
          obtain ⟨he, hr⟩ := hcond
          exact ⟨not_not.mp he, by
            cases hb : (probe ip).ready with
            | false => exact absurd hb hr
            | true => rfl⟩
        have ihres := ih.2 (fun a ha h => hprobe a (by simp [ha]) h) (by rw [hpl]; exact hready)
        rw [hpl] at ihres
        refine ⟨?_, ?_⟩
        · show ip :: probed = ip :: rest
          rw [show probed = rest from ihres.1]
        intro a ha
        rcases List.mem_cons.mp ha with rfl | hmem
        · exact hok
        · exact ihres.2 a hmem

/-- Witness for C4 at concrete inputs: of three addresses the second one
fails, so the loop returns its result having probed only the first two;
fail-fast means the third address is never contacted. -/
theorem probeLoop_fail_fast_witness :
    probeLoop (fun a => if a = "10.0.0.2:6443" then { ready := false, msg := "bad", err := none }
        else { ready := true, msg := "", err := none })
      ["10.0.0.1:6443", "10.0.0.2:6443", "10.0.0.3:6443"] =
      ((fun a => if a = "10.0.0.2:6443" then { ready := false, msg := "bad", err := none }
        else { ready := true, msg := "", err := none })
          (["10.0.0.1:6443", "10.0.0.2:6443", "10.0.0.3:6443"].getD 1 ""),
       ["10.0.0.1:6443", "10.0.0.2:6443", "10.0.0.3:6443"].take 2) :=
  (probeLoop_fail_fast _ _).1 1 (by decide) (by decide) (by decide)

/- ### Claims about the single-address probe and the document round trip. -/

/-- Claim C7: for one probe — a transport failure returns a non-nil error;
a non-200 response returns not-ready with the status line embedded in the
message and a nil error; a 200 response whose decoded body is not
deep-equal to the expected document returns not-ready with a diagnostic
message and a nil error. -/
theorem checkWellknown_branches (apiIP routeHost : String) :
    (∀ e, checkWellknownEndpointReady apiIP (.error e) routeHost =
      .result ⟨false, "",
        some ("failed to GET well-known " ++ wellKnownURL apiIP ++ ": " ++ e)⟩) ∧
    (∀ resp : HttpResponse, resp.statusCode ≠ 200 →
      checkWellknownEndpointReady apiIP (.ok resp) routeHost =
        .result ⟨false, "got '" ++ resp.status ++
          "' status while trying to GET the OAuth well-known " ++ wellKnownURL apiIP ++
          " endpoint data", none⟩) ∧
    (∀ (resp : HttpResponse) (v exp : JObj), resp.statusCode = 200 →
      parseDoc resp.body = some v → getMetadataStruct routeHost = some exp →
      deepEqualObj exp v = false →
      checkWellknownEndpointReady apiIP (.ok resp) routeHost =
        .result ⟨false, "the value returned by the well-known " ++ wellKnownURL apiIP ++
          " endpoint does not match expectations", none⟩) := by
  refine ⟨fun e => rfl, fun resp hne => ?_, fun resp v exp h200 hparse hexp hdeep => ?_⟩
  · rw [checkWellknownEndpointReady]
    rw [if_pos hne]
  · rw [checkWellknownEndpointReady]
    rw [if_neg (by simp [h200]), hparse]
    simp only []
    rw [hexp]
    simp only []
    rw [if_pos (by simp [hdeep])]

/-- Witness for C7 at concrete inputs: a refused connection, a 403
response, and a 200 response that serves the document of a different
hostname. -/
theorem checkWellknown_branches_witness :
    checkWellknownEndpointReady "10.0.0.1:6443" (.error "connection refused")
        "oauth-openshift.apps.example.com" =
      .result ⟨false, "", some ("failed to GET well-known " ++ wellKnownURL "10.0.0.1:6443" ++
        ": " ++ "connection refused")⟩ ∧
    checkWellknownEndpointReady "10.0.0.1:6443"
        (.ok { statusCode := 403, status := "403 Forbidden", body := "" })
        "oauth-openshift.apps.example.com" =
      .result ⟨false, "got '" ++ "403 Forbidden" ++
        "' status while trying to GET the OAuth well-known " ++ wellKnownURL "10.0.0.1:6443" ++
        " endpoint data", none⟩ ∧
    checkWellknownEndpointReady "10.0.0.1:6443"
        (.ok { statusCode := 200, status := "200 OK",
               body := getOAuthMetadata "oauth.other.example.com" })
        "oauth-openshift.apps.example.com" =
      .result ⟨false, "the value returned by the well-known " ++ wellKnownURL "10.0.0.1:6443" ++
        " endpoint does not match expectations", none⟩ := by
  refine ⟨(checkWellknown_branches "10.0.0.1:6443" "oauth-openshift.apps.example.com").1
    "connection refused",
    (checkWellknown_branches "10.0.0.1:6443" "oauth-openshift.apps.example.com").2.1
      { statusCode := 403, status := "403 Forbidden", body := "" } (by decide),
    (checkWellknown_branches "10.0.0.1:6443" "oauth-openshift.apps.example.com").2.2
      { statusCode := 200, status := "200 OK",
        body := getOAuthMetadata "oauth.other.example.com" }
      (expectedMetadataObj "oauth.other.example.com")
      (expectedMetadataObj "oauth-openshift.apps.example.com")
      rfl
      (parse_metadata_eq "oauth.other.example.com" (by decide))
      (by rw [getMetadataStruct]
          exact parse_metadata_eq "oauth-openshift.apps.example.com" (by decide))
      (by decide)⟩

/-- Claim C9 (amended; see `metadata_roundtrip_counterexample`): for every
hostname whose characters pass through the JSON string scanner verbatim,
generating the discovery document and unmarshalling it back yields exactly
the directly-constructed expected structure, whose keys are precisely the
seven spec-listed ones. -/
theorem metadata_roundtrip (host : String) (hg : goodHost host = true) :
    getMetadataStruct host = some (expectedMetadataObj host) ∧
    (expectedMetadataObj host).map Prod.fst =
      ["issuer".data, "authorization_endpoint".data, "token_endpoint".data,
       "scopes_supported".data, "response_types_supported".data,
       "grant_types_supported".data, "code_challenge_methods_supported".data] := by
  refine ⟨?_, rfl⟩
  rw [getMetadataStruct]
  exact parse_metadata_eq host hg

/-- Witness for C9 at the spec's host `example.com`. -/
theorem metadata_roundtrip_witness :
    getMetadataStruct "example.com" = some (expectedMetadataObj "example.com") ∧
    (expectedMetadataObj "example.com").map Prod.fst =
      ["issuer".data, "authorization_endpoint".data, "token_endpoint".data,
       "scopes_supported".data, "response_types_supported".data,
       "grant_types_supported".data, "code_challenge_methods_supported".data] :=
  metadata_roundtrip "example.com" (by decide)

/-- Counterexample for C9 as stated ("for every hostname"): a host
containing a quote character breaks the generated JSON — unmarshalling it
fails, so no structure deep-equal to anything is produced (`getMetadataStruct`
panics in Go). -/
theorem metadata_roundtrip_counterexample : getMetadataStruct "\"" = none := by
  rw [getMetadataStruct]
  exact parse_metadata_badhost

/- ### Claims about the route reconciler. -/

theorem string_length_zero_iff (s : String) : s.length = 0 ↔ s = "" := by
  constructor
  · intro h
    cases s with
    | mk data =>
      have hd : data = [] := List.length_eq_zero.mp h
      subst hd
      rfl
  · intro h
    subst h
    rfl

/-- Setting the host on the deep copy does not affect validation: none of
the validated fields involves the host. -/
theorem isValidRoute_host_irrelevant (route : Route) (ingress : Ingress) (h : String) :
    isValidRoute { route with spec := { route.spec with host := h } } ingress =
      isValidRoute route ingress := rfl

/-- Claim C6 (amended; see `handleRoute_mismatch_not_admitted` for why the
admission requirement and the set-port requirement are needed): for an
observed route (the Get succeeded) admitted at the canonical host whose
spec fails validation, `handleRoute` issues exactly one route mutation — a
delete guarded by the route's UID precondition — and returns the
validation error with no route and no secret; for a route with a port set,
validation succeeds exactly when the four validated fields match the
desired spec (and never panics); and whenever the route came from the Get,
the UID-guarded delete is the only mutating route call `handleRoute` can
issue. -/
theorem handleRoute_invalid_spec (clients : HandleRouteClients) (ingress : Ingress)
    (route : Route) (e : SpecErr) (hget : clients.routeGet = .ok route)
    (hadm : getCanonicalHost route ingress ≠ "")
    (hval : isValidRoute route ingress = .invalid e) :
    handleRoute clients ingress = (.fail (.invalidSpec e), [.delete route.name route.uid]) ∧
    (∀ (r : Route) (p : RoutePort), r.spec.port = some p →
      ((isValidRoute r ingress = .valid ↔
        (r.spec.toRef.name = targetName ∧ p.targetPort.intValue = containerPort ∧
         ∃ tls, r.spec.tls = some tls ∧ tls.termination = "passthrough" ∧
           tls.insecureEdgeTerminationPolicy = "Redirect")) ∧
       (isValidRoute r ingress = .valid ∨ ∃ e', isValidRoute r ingress = .invalid e'))) ∧
    (∀ (c : HandleRouteClients) (r : Route), c.routeGet = .ok r →
      ∀ a ∈ (handleRoute c ingress).2, a = .delete r.name r.uid) := by
  refine ⟨?_, ?_, ?_⟩
  · rw [handleRoute, hget]
    simp only []
    rw [handleRouteObtained]
    rw [if_neg (fun hlen => hadm ((string_length_zero_iff _).mp hlen))]
    simp only [isValidRoute_host_irrelevant]
    rw [hval]
    simp
  · intro r p hp
    constructor
    · by_cases hname : r.spec.toRef.name = targetName
      · by_cases hport : p.targetPort.intValue = containerPort
        · cases htls : r.spec.tls with
          | none => simp [isValidRoute, defaultRoute, hp, hname, hport, htls]
          | some tls =>
            by_cases hterm : tls.termination = "passthrough"
            · by_cases hpol : tls.insecureEdgeTerminationPolicy = "Redirect"
              · simp [isValidRoute, defaultRoute, hp, hname, hport, htls, hterm, hpol]
              · simp [isValidRoute, defaultRoute, hp, hname, hport, htls, hterm, hpol]
            · simp [isValidRoute, defaultRoute, hp, hname, hport, htls, hterm]
        · simp [isValidRoute, defaultRoute, hp, hname, hport]
      · simp [isValidRoute, defaultRoute, hp, hname]
    · cases hout : isValidRoute r ingress with
      | valid => exact Or.inl rfl
      | invalid e' => exact Or.inr ⟨e', rfl⟩
      | panicked =>
        exfalso
        by_cases hname : r.spec.toRef.name = targetName
        · by_cases hport : p.targetPort.intValue = containerPort
          · cases htls : r.spec.tls with
            | none => simp [isValidRoute, defaultRoute, hp, hname, hport, htls] at hout
            | some tls =>
              by_cases hterm : tls.termination = "passthrough"
              · by_cases hpol : tls.insecureEdgeTerminationPolicy = "Redirect"
                · simp [isValidRoute, defaultRoute, hp, hname, hport, htls, hterm, hpol] at hout
                · simp [isValidRoute, defaultRoute, hp, hname, hport, htls, hterm, hpol] at hout
              · simp [isValidRoute, defaultRoute, hp, hname, hport, htls, hterm] at hout
          · simp [isValidRoute, defaultRoute, hp, hname, hport] at hout
        · simp [isValidRoute, defaultRoute, hp, hname] at hout
  · intro c r hget' a ha
    rw [handleRoute, hget'] at ha
    simp only [] at ha
    rw [handleRouteObtained] at ha
    split at ha
    · simp at ha
    · split at ha
      all_goals first
        | simpa using ha
        | (split at ha
           all_goals first
             | simpa using ha
             | (split at ha
                all_goals simpa using ha))

/-- Witness for C6 at concrete inputs: an admitted route whose TLS
termination is `edge` instead of the desired `passthrough` is deleted
under its UID precondition and reported as an invalid-spec failure. -/
theorem handleRoute_invalid_spec_witness :
    handleRoute
      (HandleRouteClients.mk
        (.ok (Route.mk "oauth-openshift" "u1"
          (RouteSpec.mk "" "" (RouteTargetReference.mk "Service" "oauth-openshift")
            (some (RoutePort.mk (.int 6443))) (some (TLSConfig.mk "edge" "Redirect")))
          (RouteStatus.mk [RouteIngress.mk "oauth-openshift.apps.example.com"
            [RouteIngressCondition.mk "Admitted" "True"]])))
        (.error (.other "unused"))
        (.ok (Secret.mk "openshift-authentication" "v4-0-config-system-router-certs"
          [("apps.example.com", "certdata")])))
      (Ingress.mk (IngressSpec.mk "apps.example.com")) =
      (.fail (.invalidSpec .wrongTermination), [.delete "oauth-openshift" "u1"]) :=
  (handleRoute_invalid_spec
    (HandleRouteClients.mk
      (.ok (Route.mk "oauth-openshift" "u1"
        (RouteSpec.mk "" "" (RouteTargetReference.mk "Service" "oauth-openshift")
          (some (RoutePort.mk (.int 6443))) (some (TLSConfig.mk "edge" "Redirect")))
        (RouteStatus.mk [RouteIngress.mk "oauth-openshift.apps.example.com"
          [RouteIngressCondition.mk "Admitted" "True"]])))
      (.error (.other "unused"))
      (.ok (Secret.mk "openshift-authentication" "v4-0-config-system-router-certs"
        [("apps.example.com", "certdata")])))
    (Ingress.mk (IngressSpec.mk "apps.example.com"))
    (Route.mk "oauth-openshift" "u1"
      (RouteSpec.mk "" "" (RouteTargetReference.mk "Service" "oauth-openshift")
        (some (RoutePort.mk (.int 6443))) (some (TLSConfig.mk "edge" "Redirect")))
      (RouteStatus.mk [RouteIngress.mk "oauth-openshift.apps.example.com"
        [RouteIngressCondition.mk "Admitted" "True"]]))
    .wrongTermination rfl (by decide) (by decide)).1

/-- Counterexample to C6 as stated: this observed route disagrees with the
desired spec on the TLS termination (`edge` vs `passthrough`), but since no
status ingress admits it at the canonical host, `handleRoute` returns the
not-admitted error before validation, issuing no delete at all. -/
theorem handleRoute_mismatch_not_admitted :
    isValidRoute
      (Route.mk "oauth-openshift" "u1"
        (RouteSpec.mk "" "" (RouteTargetReference.mk "Service" "oauth-openshift")
          (some (RoutePort.mk (.int 6443))) (some (TLSConfig.mk "edge" "Redirect")))
        (RouteStatus.mk []))
      (Ingress.mk (IngressSpec.mk "apps.example.com")) = .invalid .wrongTermination ∧
    handleRoute
      (HandleRouteClients.mk
        (.ok (Route.mk "oauth-openshift" "u1"
          (RouteSpec.mk "" "" (RouteTargetReference.mk "Service" "oauth-openshift")
            (some (RoutePort.mk (.int 6443))) (some (TLSConfig.mk "edge" "Redirect")))
          (RouteStatus.mk [])))
        (.error (.other "unused"))
        (.ok (Secret.mk "openshift-authentication" "v4-0-config-system-router-certs"
          [("apps.example.com", "certdata")])))
      (Ingress.mk (IngressSpec.mk "apps.example.com")) = (.fail .notAdmitted, []) := by
  constructor
  · decide
  · decide

end CAO
